import Mathlib

/-!
Verification development for the rename-and-move core of Rapid Photo Downloader
(`rapid/renameandmovefile.py`) and the preference-editor list generation of
`raphodo/nameeditor.py`.

The Python code is shallowly embedded: the mutable worker object becomes an
explicit `Worker` state threaded through pure functions; the filesystem becomes
an explicit set of existing files and directories (`Fs`); external collaborators
that are not part of the repository sources here (the exiftool metadata reader
and the `generatename` generators) are modelled as oracles whose outcomes travel
inside the per-file request.
-/

namespace RPD

/-- Model of `os.path.splitext` for ordinary file names: split at the last dot,
returning (stem, extension-with-dot); a name with no dot has an empty extension. -/
def splitext (s : String) : String × String :=
  let r := s.data.reverse
  if '.' ∈ r then
    let extLen := (r.takeWhile (fun c => c ≠ '.')).length + 1
    (⟨s.data.take (s.data.length - extLen)⟩, ⟨s.data.drop (s.data.length - extLen)⟩)
  else (s, "")

/-- Model of `os.path.join` for a non-absolute second component. -/
def pathJoin (a b : String) : String := a ++ "/" ++ b

/-- `DownloadStatus` values used by the worker (from `constants.py`). -/
inductive DownloadStatus
  | notDownloaded
  | downloaded
  | downloadedWithWarning
  | downloadFailed
deriving DecidableEq, Repr

/-- Conflict-resolution policy (from `constants.ConflictResolution`). -/
inductive ConflictResolution
  | addIdentifier
  | skipDownload
deriving DecidableEq, Repr

/-- Which generated part was empty, for the fatal name-generation problem. -/
inductive NameArea
  | filename
  | subfolder
  | subfolderAndFilename
deriving DecidableEq, Repr

/-- The problems the worker attaches to a file via `add_problem`
(`problemnotification` constants actually used in `renameandmovefile.py`). -/
inductive Problem
  | cannotDownloadBadMetadata
  | fileAlreadyExistsNoDownload
  | uniqueIdentifierAdded (identifier : String)
  | downloadCopyingError
  | errorInNameGeneration (area : NameArea)
  | fileAlreadyDownloaded
  | sameFileDifferentExif
  | nameGenerationWarning
deriving DecidableEq, Repr

/-- The metadata fields the worker reads (`metadata.date_time()`,
`metadata.sub_seconds()`); the exiftool read itself is external. -/
structure Meta where
  dateTime : Int
  subSeconds : Int
deriving DecidableEq, Repr

/-! ## The RAW+JPEG pairing tracker (`SyncRawJpeg`) -/

/-- The value stored in `SyncRawJpeg.photos` for one base name:
`([extension], date_time, sub_seconds, sequence_number_used)`. -/
structure PhotoRec where
  extensions : List String
  dateTime : Int
  subSeconds : Int
  sequenceNumberUsed : Nat
deriving DecidableEq, Repr

/-- The `photos` dict, as an association list keyed by base name. -/
abbrev SyncPhotos := List (String × PhotoRec)

/-- Dict lookup on the tracker. -/
def lookupPhoto : SyncPhotos → String → Option PhotoRec
  | [], _ => none
  | (k, r) :: t, n => if k = n then some r else lookupPhoto t n

/-- Append an extension to the record of an existing base name, if absent
(the `else` branch of `SyncRawJpeg.add_download`). -/
def addExtToPhoto : SyncPhotos → String → String → SyncPhotos
  | [], _, _ => []
  | (k, r) :: t, n, e =>
    if k = n then
      (k, if e ∈ r.extensions then r else { r with extensions := r.extensions ++ [e] }) :: t
    else (k, r) :: addExtToPhoto t n e

/-- `SyncRawJpeg.add_download`. -/
def addDownload (t : SyncPhotos) (name extension : String) (dateTime subSeconds : Int)
    (sequenceNumberUsed : Nat) : SyncPhotos :=
  match lookupPhoto t name with
  | none => t ++ [(name, ⟨[extension], dateTime, subSeconds, sequenceNumberUsed⟩)]
  | some _ => addExtToPhoto t name extension

/-- `SyncRawJpegStatus`. -/
inductive SyncStatus
  | matchingPair
  | noMatch
  | errorAlreadyDownloaded
  | errorDatetimeMismatch
deriving DecidableEq, Repr

/-- `SyncRawJpegMatch` namedtuple. -/
structure SyncMatch where
  status : SyncStatus
  sequenceNumber : Option Nat
deriving DecidableEq, Repr

/-- `SyncRawJpeg.matching_pair`. -/
def matchingPair (t : SyncPhotos) (name extension : String) (dateTime subSeconds : Int) :
    SyncMatch :=
  match lookupPhoto t name with
  | some r =>
    if r.dateTime = dateTime ∧ r.subSeconds = subSeconds then
      if extension ∈ r.extensions then ⟨.errorAlreadyDownloaded, some r.sequenceNumberUsed⟩
      else ⟨.matchingPair, some r.sequenceNumberUsed⟩
    else ⟨.errorDatetimeMismatch, none⟩
  | none => ⟨.noMatch, none⟩

/-! ## Preferences, sequence state and the downloads-today tracker

`preferences.py` and `generatename.py` are not part of the sources here; the
worker only calls into them.  Their state is modelled from the spec (sections
3 and 4.3): boolean gates saying which sequence kinds the active naming
preferences reference, one persistent stored sequence number, session-scoped
counters, and a (date, count) downloads-today pair. -/

/-- The preference values `renameandmovefile.py` reads (and the one it writes,
`stored_sequence_no`).  Modelled from the spec: the `any_pref_uses_*` queries
become boolean fields fixed for the session, and `stored_sequence_no` is the
single persistent stored-sequence cell of the Sequence State. -/
structure Prefs where
  photoDownloadFolder : String
  videoDownloadFolder : String
  conflictResolution : ConflictResolution
  mustSynchronizeRawJpg : Bool
  usesSessionSequenceNo : Bool
  usesSequenceLetter : Bool
  usesStoredSequenceNo : Bool
  storedSequenceNo : Int
  downloadsTodayDate : Int
  downloadsTodayCount : Nat
deriving DecidableEq, Repr

/-- Modelled from the spec: the session-scoped part of `gn.Sequences`
(`generatename.py` is not in the sources): the session sequence number and the
sequence letter index reset when the object is created at session start, and the
transient matched-sequence slot. -/
structure Sequences where
  sessionSequenceNo : Nat
  sequenceLetter : Nat
  matchedSequences : Option Nat
deriving DecidableEq, Repr

/-- Modelled from the spec: `gn.Sequences.increment(uses_session, uses_letter)`
conditionally advances the session sequence number and/or the letter index. -/
def Sequences.increment (s : Sequences) (usesSession usesLetter : Bool) : Sequences :=
  { s with
    sessionSequenceNo := if usesSession then s.sessionSequenceNo + 1 else s.sessionSequenceNo
    sequenceLetter := if usesLetter then s.sequenceLetter + 1 else s.sequenceLetter }

/-- Modelled from the spec: `gn.Sequences.set_matched_sequence_value`. -/
def Sequences.setMatchedSequenceValue (s : Sequences) (v : Option Nat) : Sequences :=
  { s with matchedSequences := v }

/-- Modelled from the spec: `gn.Sequences.create_matched_sequences`, the sequence
value consumed by this placement, recorded in the pairing tracker so that the
RAW+JPEG counterpart of the file can reuse it. -/
def Sequences.createMatchedSequences (s : Sequences) : Nat := s.sessionSequenceNo

/-- Modelled from the spec: `DownloadsTodayTracker` (`preferences.py` is not in
the sources): a stored date and the count of downloads made on that date. -/
structure DownloadsTodayTracker where
  date : Int
  count : Nat
deriving DecidableEq, Repr

/-- Modelled from the spec: `get_or_reset_downloads_today`; `today` is the
wall-clock date already adjusted for the configured day-start boundary.  If it
differs from the stored date the count resets to 0. -/
def DownloadsTodayTracker.getOrResetDownloadsToday (t : DownloadsTodayTracker) (today : Int) :
    DownloadsTodayTracker :=
  if t.date = today then t else { date := today, count := 0 }

/-- Modelled from the spec: `increment_downloads_today`. -/
def DownloadsTodayTracker.incrementDownloadsToday (t : DownloadsTodayTracker) :
    DownloadsTodayTracker :=
  { t with count := t.count + 1 }

/-! ## The filesystem model -/

/-- The filesystem as the worker observes it: the set of existing regular files
and the set of existing directories. -/
structure Fs where
  files : List String
  dirs : List String
deriving DecidableEq, Repr

/-- Insert without duplicating. -/
def listInsert (a : String) (l : List String) : List String :=
  if a ∈ l then l else a :: l

/-- `os.makedirs` (success case; an already-existing directory is not an error). -/
def Fs.mkdirs (fs : Fs) (d : String) : Fs :=
  { fs with dirs := listInsert d fs.dirs }

/-- `os.rename src dst` once it is known to succeed: `src` disappears, `dst`
exists (overwriting any previous `dst`). -/
def Fs.rename (fs : Fs) (src dst : String) : Fs :=
  { fs with files := listInsert dst (fs.files.erase src) }

/-- `os.remove` (used for temp-file cleanup after a failed move). -/
def Fs.remove (fs : Fs) (p : String) : Fs :=
  { fs with files := fs.files.erase p }

/-! ## The per-file state (`RPDFile`) -/

/-- The slice of `RPDFile` that `renameandmovefile.py` reads and writes.  The
first group of fields is the incoming request (including the oracle outcomes of
the external collaborators: `metadata` is the result of the exiftool read, and
`genSubfolder` / `genName` / `nameGenProblem` are the outputs of the external
`generatename` generators for this file); the second group holds the values the
worker itself fills in while processing. -/
structure RpdFile where
  name : String
  isPhoto : Bool
  metadata : Option Meta
  genSubfolder : String
  genName : String
  nameGenProblem : Bool
  tempFullFileName : String
  tempThmFullName : Option String
  tempAudioFullName : Option String
  tempXmpFullName : Option String
  thmExtension : Option String
  audioExtension : Option String
  xmpExtension : String
  downloadFolder : String := ""
  downloadSubfolder : String := ""
  downloadName : String := ""
  downloadPath : String := ""
  downloadFullFileName : String := ""
  downloadFullBaseName : String := ""
  downloadThmFullName : String := ""
  downloadAudioFullName : String := ""
  downloadXmpFullName : String := ""
  status : DownloadStatus := .notDownloaded
  problems : List Problem := []
deriving DecidableEq, Repr

/-- `rpd_file.add_problem`. -/
def addProblem (f : RpdFile) (p : Problem) : RpdFile :=
  { f with problems := f.problems ++ [p] }

/-- `load_metadata`: the exiftool read is external; the request's `metadata`
field carries its outcome (`none` = the read fails, as in the source a failed
read records a problem and returns `False`). -/
def loadMetadata (f : RpdFile) : RpdFile × Bool :=
  match f.metadata with
  | some _ => (f, true)
  | none => (addProblem f .cannotDownloadBadMetadata, false)

/-- `generate_subfolder` composed with `_generate_name`: on a failed metadata
load the generated value degrades to the empty string. -/
def generateSubfolder (f : RpdFile) : RpdFile :=
  let p := loadMetadata f
  { p.1 with downloadSubfolder := if p.2 then p.1.genSubfolder else "" }

/-- `generate_name` composed with `_generate_name`; the external generator may
record a (non-fatal) problem while producing the name. -/
def generateName (f : RpdFile) : RpdFile :=
  let p := loadMetadata f
  if p.2 then
    { p.1 with
      downloadName := p.1.genName
      problems :=
        if p.1.nameGenProblem then p.1.problems ++ [Problem.nameGenerationWarning]
        else p.1.problems }
  else { p.1 with downloadName := "" }

/-- The `area` computed by `check_for_fatal_name_generation_errors`: which of
the generated parts is empty. -/
def nameArea (f : RpdFile) : NameArea :=
  if f.downloadSubfolder = "" ∧ f.downloadName = "" then .subfolderAndFilename
  else if f.downloadName = "" then .filename
  else .subfolder

/-- `RenameMoveFileWorker.check_for_fatal_name_generation_errors`. -/
def checkForFatalNameGenerationErrors (f : RpdFile) : RpdFile × Bool :=
  if f.downloadSubfolder = "" ∨ f.downloadName = "" then
    ({ addProblem f (.errorInNameGeneration (nameArea f)) with status := .downloadFailed }, false)
  else (f, true)

/-- `RenameMoveFileWorker.generate_names`. -/
def generateNames (f : RpdFile) : RpdFile × Bool :=
  let f := generateSubfolder f
  let f :=
    if f.downloadSubfolder ≠ "" then
      let f := generateName f
      if f.problems ≠ [] then { f with status := .downloadedWithWarning } else f
    else f
  checkForFatalNameGenerationErrors f

/-- `RenameMoveFileWorker.notify_file_already_exists`. -/
def notifyFileAlreadyExists (f : RpdFile) (identifier : Option String) : RpdFile :=
  match identifier with
  | none => { addProblem f .fileAlreadyExistsNoDownload with status := .downloadFailed }
  | some ident =>
    { addProblem f (.uniqueIdentifierAdded ident) with status := .downloadedWithWarning }

/-- `RenameMoveFileWorker.notify_download_failure_file_error`. -/
def notifyDownloadFailureFileError (f : RpdFile) : RpdFile :=
  { addProblem f .downloadCopyingError with status := .downloadFailed }

/-- `RenameMoveFileWorker.download_file_exists`: decide how to handle an already
existing destination; `true` means retry with a unique identifier. -/
def downloadFileExists (p : Prefs) (f : RpdFile) : RpdFile × Bool :=
  if p.conflictResolution = .addIdentifier then (f, true)
  else (notifyFileAlreadyExists f none, false)

/-! ## The worker state and the relocation engine -/

/-- The mutable state of `RenameMoveFileWorker`: the preference values, the
RAW+JPEG pairing tracker (created once in `__init__`), the per-destination
duplicate-suffix dict (created once at the start of `run`), the sequence state
and downloads-today tracker (created on each `download_started` message), and
the filesystem. -/
structure Worker where
  prefs : Prefs
  syncRawJpeg : SyncPhotos
  duplicateFiles : List (String × Nat)
  sequences : Sequences
  downloadsToday : DownloadsTodayTracker
  fs : Fs
deriving DecidableEq, Repr

/-- Dict read with default (`self.duplicate_files.get(full_name, 0)`). -/
def assocGetD : List (String × Nat) → String → Nat → Nat
  | [], _, d => d
  | (k, v) :: t, n, d => if k = n then v else assocGetD t n d

/-- Dict write (`self.duplicate_files[full_name] = v`). -/
def assocSet : List (String × Nat) → String → Nat → List (String × Nat)
  | [], k, v => [(k, v)]
  | (k', v') :: t, k, v => if k' = k then (k, v) :: t else (k', v') :: assocSet t k v

/-- One run of the `while True` loop body of
`RenameMoveFileWorker.add_unique_identifier`, with explicit fuel.  `stem`/`ext`
are `os.path.splitext` of the original generated name and `fullName` the
original destination path (the dict key is fixed for the whole loop).  Each
iteration bumps the per-destination counter, forms the `_n` candidate, raises
`EEXIST` and loops if the candidate exists, otherwise attempts the rename:
success notifies with the identifier and returns `true`; a failed rename (the
temp file is gone: a non-`EEXIST` `OSError`) notifies the failure and returns
`false`.  `none` means the fuel ran out; the fuel used by `addUniqueIdentifier`
is proven sufficient below. -/
def addUidLoop (fuel : Nat) (w : Worker) (f : RpdFile) (stem ext fullName : String) :
    Option (Worker × RpdFile × Bool) :=
  match fuel with
  | 0 => none
  | fuel + 1 =>
    let n := assocGetD w.duplicateFiles fullName 0 + 1
    let w := { w with duplicateFiles := assocSet w.duplicateFiles fullName n }
    let identifier := "_" ++ Nat.repr n
    let f := { f with downloadName := stem ++ identifier ++ ext }
    let f := { f with downloadFullFileName := pathJoin f.downloadPath f.downloadName }
    if f.downloadFullFileName ∈ w.fs.files then
      addUidLoop fuel w f stem ext fullName
    else if f.tempFullFileName ∈ w.fs.files then
      let w := { w with fs := w.fs.rename f.tempFullFileName f.downloadFullFileName }
      some (w, notifyFileAlreadyExists f (some identifier), true)
    else
      some (w, notifyDownloadFailureFileError f, false)

/-- `RenameMoveFileWorker.add_unique_identifier`.  The fuel
`w.fs.files.length + 1` is sufficient (each looping iteration consumes a
distinct existing file), so the default branch of `getD` is never taken. -/
def addUniqueIdentifier (w : Worker) (f : RpdFile) : Worker × RpdFile × Bool :=
  let se := splitext f.downloadName
  (addUidLoop (w.fs.files.length + 1) w f se.1 se.2 f.downloadFullFileName).getD (w, f, false)

/-- `RenameMoveFileWorker.move_file`.  Note that in the add-identifier branch the
source discards the return value of `add_unique_identifier`
(`self.add_unique_identifier(rpd_file)` on its own line), so `move_succeeded`
stays `False` there. -/
def moveFile (w : Worker) (f : RpdFile) : Worker × RpdFile × Bool :=
  let f := { f with downloadPath := pathJoin f.downloadFolder f.downloadSubfolder }
  let f := { f with downloadFullFileName := pathJoin f.downloadPath f.downloadName }
  let f := { f with downloadFullBaseName := (splitext f.downloadFullFileName).1 }
  let w := { w with fs := w.fs.mkdirs f.downloadPath }
  if f.downloadFullFileName ∈ w.fs.files then
    let p := downloadFileExists w.prefs f
    if p.2 then
      let q := addUniqueIdentifier w p.1
      (q.1, q.2.1, false)
    else (w, p.1, false)
  else if f.tempFullFileName ∈ w.fs.files then
    let w := { w with fs := w.fs.rename f.tempFullFileName f.downloadFullFileName }
    let f := if f.status ≠ .downloadedWithWarning then { f with status := .downloaded } else f
    (w, f, true)
  else
    (w, notifyDownloadFailureFileError f, false)

/-! ## RAW+JPEG synchronisation -/

/-- `SyncRawJpegResult` namedtuple. -/
structure SyncRawJpegResult where
  sequenceToUse : Option Nat
  failed : Bool
  photoName : String
  photoExt : String
deriving DecidableEq, Repr

/-- `RenameMoveFileWorker.same_name_different_exif`. -/
def sameNameDifferentExif (f : RpdFile) : RpdFile :=
  { addProblem f .sameFileDifferentExif with status := .downloadedWithWarning }

/-- `RenameMoveFileWorker.sync_raw_jpg`. -/
def syncRawJpg (w : Worker) (f : RpdFile) : Worker × RpdFile × SyncRawJpegResult :=
  let se := splitext f.name
  match f.metadata with
  | none =>
    let f := (loadMetadata f).1
    let f := { f with status := .downloadFailed }
    let f := (checkForFatalNameGenerationErrors f).1
    (w, f, ⟨none, true, se.1, se.2⟩)
  | some m =>
    let mp := matchingPair w.syncRawJpeg se.1 se.2 m.dateTime m.subSeconds
    if mp.status = .errorAlreadyDownloaded then
      if w.prefs.conflictResolution ≠ .addIdentifier then
        let f := addProblem f .fileAlreadyDownloaded
        let f := { f with status := .downloadFailed }
        (w, f, ⟨mp.sequenceNumber, true, se.1, se.2⟩)
      else (w, f, ⟨mp.sequenceNumber, false, se.1, se.2⟩)
    else
      let w := { w with sequences := w.sequences.setMatchedSequenceValue mp.sequenceNumber }
      if mp.status = .errorDatetimeMismatch then
        (w, sameNameDifferentExif f, ⟨mp.sequenceNumber, false, se.1, se.2⟩)
      else (w, f, ⟨mp.sequenceNumber, false, se.1, se.2⟩)

/-! ## Sidecar files -/

/-- `RenameMoveFileWorker._move_associate_file`: best-effort rename of an
associate file to the final base name plus the given extension; returns the new
filesystem, whether the rename succeeded, and the destination path. -/
def moveAssociateFile (fs : Fs) (extension fullBaseName tempAssociateFile : String) :
    Fs × Bool × String :=
  let downloadFullName := fullBaseName ++ extension
  if tempAssociateFile ∈ fs.files then
    (fs.rename tempAssociateFile downloadFullName, true, downloadFullName)
  else (fs, false, downloadFullName)

/-- The sidecar block at the end of `process_file`: move the THM thumbnail, the
audio file and the XMP sidecar, each best-effort (a failure is only logged). -/
def sidecarPhase (w : Worker) (f : RpdFile) : Worker × RpdFile :=
  let p :=
    match f.tempThmFullName with
    | some tmp =>
      let ext := match f.thmExtension with
                 | some e => if e = "" then ".THM" else e
                 | none => ".THM"
      let r := moveAssociateFile w.fs ext f.downloadFullBaseName tmp
      ({ w with fs := r.1 }, { f with downloadThmFullName := r.2.2 })
    | none => (w, f)
  let w := p.1
  let f := p.2
  let p :=
    match f.tempAudioFullName with
    | some tmp =>
      let ext := match f.audioExtension with
                 | some e => if e = "" then ".WAV" else e
                 | none => ".WAV"
      let r := moveAssociateFile w.fs ext f.downloadFullBaseName tmp
      ({ w with fs := r.1 }, { f with downloadAudioFullName := r.2.2 })
    | none => (w, f)
  let w := p.1
  let f := p.2
  match f.tempXmpFullName with
  | some tmp =>
    let dest := f.downloadFullBaseName ++ f.xmpExtension
    if tmp ∈ w.fs.files then
      ({ w with fs := w.fs.rename tmp dest }, { f with downloadXmpFullName := dest })
    else (w, f)
  | none => (w, f)

/-! ## `process_file` -/

/-- `RenameMoveFileWorker.prepare_rpd_file` (the subfolder/name preference lists
it also copies feed only the external generators). -/
def prepareRpdFile (p : Prefs) (f : RpdFile) : RpdFile :=
  { f with downloadFolder := if f.isPhoto then p.photoDownloadFolder else p.videoDownloadFolder }

/-- The bookkeeping block of `process_file` that runs after a successful move:
record the download in the pairing tracker (in RAW+JPEG mode) and advance the
sequence counters when no matched sequence value was reused.  The
`stored_sequence_no` bump writes the preference cell, exactly as
`self.prefs.stored_sequence_no += 1` does. -/
def bookkeepAdvance (w : Worker) : Worker :=
  let usesSession := w.prefs.usesSessionSequenceNo
  let usesLetter := w.prefs.usesSequenceLetter
  let w :=
    if usesSession || usesLetter then
      { w with sequences := w.sequences.increment usesSession usesLetter }
    else w
  let w :=
    if w.prefs.usesStoredSequenceNo then
      { w with prefs := { w.prefs with storedSequenceNo := w.prefs.storedSequenceNo + 1 } }
    else w
  { w with downloadsToday := w.downloadsToday.incrementDownloadsToday }

def bookkeep (w : Worker) (f : RpdFile) (syncRJ : Bool) (syncRes : Option SyncRawJpegResult) :
    Worker :=
  let w :=
    if syncRJ then
      match syncRes with
      | some sr =>
        let sequence :=
          match sr.sequenceToUse with
          | none => w.sequences.createMatchedSequences
          | some s => s
        let m := f.metadata.getD ⟨0, 0⟩
        { w with
          syncRawJpeg := addDownload w.syncRawJpeg sr.photoName sr.photoExt
            m.dateTime m.subSeconds sequence }
      | none => w
    else w
  if !syncRJ || (match syncRes with | some sr => sr.sequenceToUse.isNone | none => true) then
    bookkeepAdvance w
  else w

/-- `RenameMoveFileWorker.process_file`. -/
def processFile (w : Worker) (f : RpdFile) : Worker × RpdFile × Bool :=
  let f := prepareRpdFile w.prefs f
  let syncRJ := w.prefs.mustSynchronizeRawJpg && f.isPhoto
  let s :=
    if syncRJ then
      let r := syncRawJpg w f
      (r.1, r.2.1, some r.2.2)
    else (w, f, none)
  let w := s.1
  let f := s.2.1
  let syncRes : Option SyncRawJpegResult := s.2.2
  if (match syncRes with | some sr => sr.failed | none => false) then (w, f, false)
  else
    let p := generateNames f
    let f := p.1
    if p.2 then
      let q := moveFile w f
      let w := q.1
      let f := q.2.1
      if q.2.2 then
        let w := bookkeep w f syncRJ syncRes
        let r := sidecarPhase w f
        (r.1, r.2, true)
      else (w, f, false)
    else (w, f, false)

/-! ## The daemon loop -/

/-- `RenameMoveFileWorker.process_rename_failure`: after a failed move the temp
file is deleted (best-effort). -/
def processRenameFailure (w : Worker) (f : RpdFile) : Worker :=
  { w with fs := w.fs.remove f.tempFullFileName }

/-- The messages of `RenameAndMoveFileData` that drive `run`'s loop; `today` on
`downloadStarted` is the wall-clock date (adjusted for the day-start boundary)
at session start. -/
inductive Msg
  | downloadStarted (today : Int)
  | downloadCompleted
  | fileRequest (f : RpdFile) (downloadSucceeded : Bool)
deriving DecidableEq, Repr

/-- The results sent to the sink (`RenameAndMoveFileResults`). -/
inductive Response
  | fileResult (moveSucceeded : Bool) (f : RpdFile)
  | sessionResult (storedSequenceNo : Int) (downloadsToday : Nat)
deriving DecidableEq, Repr

/-- One iteration of `run`'s receive loop.  `download_started` rebuilds the
downloads-today tracker from the preference values, rolls it, and creates a
fresh sequence object (it does not touch the pairing tracker or the
duplicate-suffix dict).  `download_completed` emits the stored sequence number
and downloads-today count — modelled from the spec: `gn.Sequences` is absent
from the sources, and per spec 4.3/4.6 there is a single stored-sequence cell,
so the emitted `sequences.stored_sequence_no` is the preference cell the
per-file bump wrote. -/
def step (w : Worker) (m : Msg) : Worker × Option Response :=
  match m with
  | .downloadStarted today =>
    let tracker : DownloadsTodayTracker := ⟨w.prefs.downloadsTodayDate, w.prefs.downloadsTodayCount⟩
    let sequences : Sequences := ⟨0, 0, none⟩
    let tracker := tracker.getOrResetDownloadsToday today
    ({ w with downloadsToday := tracker, sequences := sequences }, none)
  | .downloadCompleted =>
    (w, some (.sessionResult w.prefs.storedSequenceNo w.downloadsToday.count))
  | .fileRequest f dlOk =>
    if dlOk then
      let r := processFile w f
      let w := if r.2.2 then r.1 else processRenameFailure r.1 r.2.1
      (w, some (.fileResult r.2.2 r.2.1))
    else (w, some (.fileResult false f))

/-- `run`'s loop over a list of incoming messages. -/
def runLoop (w : Worker) : List Msg → Worker × List Response
  | [] => (w, [])
  | m :: ms =>
    let p := step w m
    let q := runLoop p.1 ms
    (q.1, (match p.2 with | some r => [r] | none => []) ++ q.2)

/-- Whether a response reports a successful placement. -/
def isPlacedResult : Response → Bool
  | .fileResult true _ => true
  | _ => false

/-! ## Concrete scenarios

Small closed instances of the model, used to evaluate the code's behaviour at
specific inputs. -/

/-- A minimal photo request: source name `nm` with readable metadata
`(dt, ss)`, generated subfolder `"sub"` and generated name `gname`, temporary
file `tmp`, no sidecars. -/
def mkReq (nm gname tmp : String) (dt ss : Int) : RpdFile :=
  { name := nm, isPhoto := true, metadata := some ⟨dt, ss⟩
    genSubfolder := "sub", genName := gname, nameGenProblem := false
    tempFullFileName := tmp, tempThmFullName := none, tempAudioFullName := none
    tempXmpFullName := none, thmExtension := none, audioExtension := none
    xmpExtension := ".xmp" }

/-- Preferences: add-identifier conflict policy, RAW+JPEG sync off, no sequence
kind referenced by the naming preferences. -/
def prefsPlain : Prefs :=
  { photoDownloadFolder := "dl", videoDownloadFolder := "dlv"
    conflictResolution := .addIdentifier, mustSynchronizeRawJpg := false
    usesSessionSequenceNo := false, usesSequenceLetter := false
    usesStoredSequenceNo := false, storedSequenceNo := 100
    downloadsTodayDate := 0, downloadsTodayCount := 0 }

/-- C2 scenario: three files that all generate the destination name
`IMG.JPG`, under the add-identifier policy. -/
def workerC2 : Worker :=
  { prefs := prefsPlain, syncRawJpeg := [], duplicateFiles := []
    sequences := ⟨0, 0, none⟩, downloadsToday := ⟨0, 0⟩
    fs := ⟨["tmp/t1", "tmp/t2", "tmp/t3"], []⟩ }

def c2Run1 : Worker × RpdFile × Bool :=
  processFile workerC2 (mkReq "IMG.JPG" "IMG.JPG" "tmp/t1" 1 1)

def c2Run2 : Worker × RpdFile × Bool :=
  processFile c2Run1.1 (mkReq "IMG.JPG" "IMG.JPG" "tmp/t2" 1 1)

def c2Run3 : Worker × RpdFile × Bool :=
  processFile c2Run2.1 (mkReq "IMG.JPG" "IMG.JPG" "tmp/t3" 1 1)

/-- Preferences for the RAW+JPEG synchronisation scenarios: sync on, stored
sequence number referenced by the naming preferences. -/
def prefsSync : Prefs :=
  { prefsPlain with mustSynchronizeRawJpg := true, usesStoredSequenceNo := true }

/-- C6 scenario: one session in RAW+JPEG sync mode placing a RAW and its JPEG
counterpart (same base name `B001`, same capture time), then finishing. -/
def workerC6 : Worker :=
  { prefs := prefsSync, syncRawJpeg := [], duplicateFiles := []
    sequences := ⟨0, 0, none⟩, downloadsToday := ⟨0, 0⟩
    fs := ⟨["t/b1", "t/b2"], []⟩ }

def msgsC6 : List Msg :=
  [.downloadStarted 0,
   .fileRequest (mkReq "B001.cr2" "B.CR2" "t/b1" 9 9) true,
   .fileRequest (mkReq "B001.jpg" "B.JPG" "t/b2" 9 9) true,
   .downloadCompleted]

def c6Resps : List Response := (runLoop workerC6 msgsC6).2

/-- C7 scenario: a session in sync mode that populates the pairing tracker and
the duplicate-suffix dict, followed by a second `download_started` message. -/
def workerC7 : Worker :=
  { prefs := prefsSync, syncRawJpeg := [], duplicateFiles := []
    sequences := ⟨0, 0, none⟩, downloadsToday := ⟨0, 0⟩
    fs := ⟨["t/a1", "t/d1", "t/d2"], []⟩ }

def msgsC7 : List Msg :=
  [.downloadStarted 0,
   .fileRequest (mkReq "A000.cr2" "S.CR2" "t/a1" 5 5) true,
   .fileRequest (mkReq "A001.jpg" "X.JPG" "t/d1" 6 6) true,
   .fileRequest (mkReq "A002.jpg" "X.JPG" "t/d2" 7 7) true,
   .downloadStarted 1]

def c7End : Worker := (runLoop workerC7 msgsC7).1

/-- C8 scenario: a successfully placed file whose THM sidecar temp file is
missing, so the sidecar rename fails. -/
def workerC8 : Worker :=
  { prefs := prefsPlain, syncRawJpeg := [], duplicateFiles := []
    sequences := ⟨0, 0, none⟩, downloadsToday := ⟨0, 0⟩
    fs := ⟨["t/m1"], []⟩ }

def c8Run : Worker × RpdFile × Bool :=
  processFile workerC8
    { mkReq "M.JPG" "M.JPG" "t/m1" 2 2 with tempThmFullName := some "t/thm" }


/-! ## Decimal representation (the digits of the `'_%s' % n` identifier) -/

/-- Big-endian decimal digit characters of `n`: the contents of the Python
format `'%s' % n` used to build the `_n` unique identifier. -/
def decChars (n : Nat) : List Char :=
  if _h : n < 10 then [Nat.digitChar n]
  else decChars (n / 10) ++ [Nat.digitChar (n % 10)]
decreasing_by exact Nat.div_lt_self (by omega) (by omega)

end RPD

namespace NameEditor

/-!
## The preference editor's pref-list generation (`raphodo/nameeditor.py`)

`PrefEditor.generatePrefList` rebuilds `user_pref_list` / `user_pref_colors`
from the document text and the highlighter's boundary list.  The boundary list,
the `string_to_pref_mapper` dict (whose values are the 3-tuples keying
`pref_mapper`) and the `pref_color` dict are inputs here; the two constants
`TEXT` and `SEPARATOR` come from `generatenameconfig.py` (not among the sources
— only their identity matters for these results). -/

/-- The `TEXT` constant of `generatenameconfig`. -/
def textKey : String := "text"

/-- The `SEPARATOR` constant of `generatenameconfig` (`os.sep`). -/
def separatorKey : String := "/"

/-- Python `s[i:j]`. -/
def strSlice (s : String) (i j : Nat) : String := ⟨(s.data.take j).drop i⟩

/-- A `pref_mapper` key as the three strings it contributes to the pref list. -/
def tuple3ToList (t : String × String × String) : List String := [t.1, t.2.1, t.2.2]

/-- The subfolder arm of `PrefEditor._parseTextFragment`: walk the fragments
obtained by splitting on `os.sep`; a non-empty fragment contributes a
`(TEXT, fragment, '')` triple and one colour entry, and every fragment except
the last contributes a `(SEPARATOR, '', '')` triple and one colour entry. -/
def parseFragSub : List String → List String × List String
  | [] => ([], [])
  | [frag] => if frag ≠ "" then ([textKey, frag, ""], [""]) else ([], [])
  | frag :: rest =>
    let head : List String × List String :=
      if frag ≠ "" then ([textKey, frag, ""], [""]) else ([], [])
    let tail := parseFragSub rest
    (head.1 ++ [separatorKey, "", ""] ++ tail.1, head.2 ++ [""] ++ tail.2)

/-- `PrefEditor._parseTextFragment`. -/
def parseTextFragment (subfolder : Bool) (frag : String) : List String × List String :=
  if subfolder then parseFragSub (frag.splitOn "/")
  else ([textKey, frag, ""], [""])

/-- The middle of `PrefEditor.generatePrefList`: for each boundary, the mapped
3-tuple of the pref value between `<` and `>` plus its colour, and, between two
consecutive boundaries, the parsed plain-text fragment. -/
def midLoop (subfolder : Bool) (mapper : String → String × String × String)
    (colorOf : String → String) (text : String) :
    List (Nat × Nat) → List String × List String
  | [] => ([], [])
  | [b0] =>
    (tuple3ToList (mapper (strSlice text (b0.1 + 1) b0.2)),
     [colorOf (strSlice text b0.1 (b0.2 + 1))])
  | b0 :: b1 :: rest =>
    let m := tuple3ToList (mapper (strSlice text (b0.1 + 1) b0.2))
    let c := colorOf (strSlice text b0.1 (b0.2 + 1))
    let frag := parseTextFragment subfolder (strSlice text (b0.2 + 1) b1.1)
    let tail := midLoop subfolder mapper colorOf text (b1 :: rest)
    (m ++ frag.1 ++ tail.1, [c] ++ frag.2 ++ tail.2)

/-- The leading-text handling of `generatePrefList` (`if b and b[0][0] > 0`). -/
def leadPart (subfolder : Bool) (text : String) (b : List (Nat × Nat)) :
    List String × List String :=
  match b with
  | b0 :: _ =>
    if b0.1 > 0 then parseTextFragment subfolder (strSlice text 0 b0.1) else ([], [])
  | [] => ([], [])

/-- The position after the last boundary (`final` in the source). -/
def finalPos (b : List (Nat × Nat)) : Nat :=
  match b.getLast? with | some bl => bl.2 + 1 | none => 0

/-- The trailing-text handling of `generatePrefList` (`if final < len(text)`). -/
def trailPart (subfolder : Bool) (text : String) (b : List (Nat × Nat)) :
    List String × List String :=
  if finalPos b < text.length then parseTextFragment subfolder (strSlice text (finalPos b) text.length)
  else ([], [])

/-- `PrefEditor.generatePrefList`: leading text before the first boundary, the
boundary/between-text loop, and any trailing text after the last boundary. -/
def generatePrefList (subfolder : Bool) (mapper : String → String × String × String)
    (colorOf : String → String) (text : String) (b : List (Nat × Nat)) :
    List String × List String :=
  let lead := leadPart subfolder text b
  let mid := midLoop subfolder mapper colorOf text b
  let trail := trailPart subfolder text b
  (lead.1 ++ mid.1 ++ trail.1, lead.2 ++ mid.2 ++ trail.2)

end NameEditor

/-! # Theorems -/

namespace NameEditor

/-- Each fragment walk keeps the 3-to-1 relation between pref-list strings and
colour entries. -/
theorem parseFragSub_len (l : List String) :
    (parseFragSub l).1.length = 3 * (parseFragSub l).2.length := by
  induction l with
  | nil => simp [parseFragSub]
  | cons a t ih =>
    cases t with
    | nil => by_cases h : a = "" <;> simp [parseFragSub, h]
    | cons b t' =>
      by_cases h : a = "" <;>
        simp [parseFragSub, h, ih] <;> omega

/-- `_parseTextFragment` keeps the 3-to-1 relation. -/
theorem parseTextFragment_len (subfolder : Bool) (frag : String) :
    (parseTextFragment subfolder frag).1.length =
      3 * (parseTextFragment subfolder frag).2.length := by
  cases subfolder <;> simp [parseTextFragment, parseFragSub_len]

/-- The boundary loop keeps the 3-to-1 relation. -/
theorem midLoop_len (subfolder : Bool) (mapper : String → String × String × String)
    (colorOf : String → String) (text : String) (b : List (Nat × Nat)) :
    (midLoop subfolder mapper colorOf text b).1.length =
      3 * (midLoop subfolder mapper colorOf text b).2.length := by
  induction b with
  | nil => simp [midLoop]
  | cons b0 rest ih =>
    cases rest with
    | nil => simp [midLoop, tuple3ToList]
    | cons b1 rest' =>
      simp [midLoop, tuple3ToList, ih, parseTextFragment_len]
      omega

/-- The leading-text part keeps the 3-to-1 relation. -/
theorem leadPart_len (subfolder : Bool) (text : String) (b : List (Nat × Nat)) :
    (leadPart subfolder text b).1.length = 3 * (leadPart subfolder text b).2.length := by
  cases b with
  | nil => simp [leadPart]
  | cons b0 rest =>
    by_cases h : b0.1 > 0 <;> simp [leadPart, h, parseTextFragment_len]

/-- The trailing-text part keeps the 3-to-1 relation. -/
theorem trailPart_len (subfolder : Bool) (text : String) (b : List (Nat × Nat)) :
    (trailPart subfolder text b).1.length = 3 * (trailPart subfolder text b).2.length := by
  by_cases h : finalPos b < text.length <;> simp [trailPart, h, parseTextFragment_len]

/-- C10: after every run of the preference editor's pref-list generation from
the document text, the produced `user_pref_list` has length divisible by 3
(every token occupies a consecutive triple of strings) and `user_pref_colors`
has exactly `len(user_pref_list) / 3` entries, one per token. -/
theorem generatePrefList_triples (subfolder : Bool)
    (mapper : String → String × String × String) (colorOf : String → String)
    (text : String) (b : List (Nat × Nat)) :
    (generatePrefList subfolder mapper colorOf text b).1.length % 3 = 0 ∧
    (generatePrefList subfolder mapper colorOf text b).2.length =
      (generatePrefList subfolder mapper colorOf text b).1.length / 3 := by
  have h : (generatePrefList subfolder mapper colorOf text b).1.length =
      3 * (generatePrefList subfolder mapper colorOf text b).2.length := by
    simp [generatePrefList, leadPart_len, midLoop_len, trailPart_len]
    omega
  omega

end NameEditor

namespace RPD

/-- C3: the pairing tracker's `matching_pair` answers a query
(base name, extension, capture time, sub-seconds) with `AlreadyDownloaded`
carrying the recorded sequence number iff the base name was recorded with the
same capture time, sub-seconds and extension; `MatchingPair` carrying the
counterpart's sequence number iff the times match but the extension was not
recorded; `TimeMismatch` with no sequence number iff the base name was recorded
with a different capture time or sub-seconds; and `NoMatch` iff the base name is
unseen. -/
theorem matchingPair_classification (t : SyncPhotos) (name extension : String)
    (dateTime subSeconds : Int) :
    ((matchingPair t name extension dateTime subSeconds).status = .errorAlreadyDownloaded ↔
      ∃ r, lookupPhoto t name = some r ∧ r.dateTime = dateTime ∧ r.subSeconds = subSeconds ∧
        extension ∈ r.extensions ∧
        (matchingPair t name extension dateTime subSeconds).sequenceNumber =
          some r.sequenceNumberUsed) ∧
    ((matchingPair t name extension dateTime subSeconds).status = .matchingPair ↔
      ∃ r, lookupPhoto t name = some r ∧ r.dateTime = dateTime ∧ r.subSeconds = subSeconds ∧
        extension ∉ r.extensions ∧
        (matchingPair t name extension dateTime subSeconds).sequenceNumber =
          some r.sequenceNumberUsed) ∧
    ((matchingPair t name extension dateTime subSeconds).status = .errorDatetimeMismatch ↔
      (∃ r, lookupPhoto t name = some r ∧ ¬(r.dateTime = dateTime ∧ r.subSeconds = subSeconds)) ∧
        (matchingPair t name extension dateTime subSeconds).sequenceNumber = none) ∧
    ((matchingPair t name extension dateTime subSeconds).status = .noMatch ↔
      lookupPhoto t name = none ∧
        (matchingPair t name extension dateTime subSeconds).sequenceNumber = none) := by
  cases h : lookupPhoto t name with
  | none => simp [matchingPair, h]
  | some r =>
    by_cases hts : r.dateTime = dateTime ∧ r.subSeconds = subSeconds
    · by_cases he : extension ∈ r.extensions
      · simp [matchingPair, h, hts, he, hts.1, hts.2]
      · simp [matchingPair, h, hts, he, hts.1, hts.2]
    · simp [matchingPair, h, hts]
      intro r0 hr0
      subst hr0
      simp_all

/-! ## State-preservation lemmas -/

/-- The identifier loop never touches the preference values, the sequence
state, the downloads-today tracker or the pairing tracker. -/
theorem addUidLoop_state (fuel : Nat) :
    ∀ (w : Worker) (f : RpdFile) (stem ext fullName : String)
      (out : Worker × RpdFile × Bool),
      addUidLoop fuel w f stem ext fullName = some out →
      out.1.prefs = w.prefs ∧ out.1.sequences = w.sequences ∧
      out.1.downloadsToday = w.downloadsToday ∧ out.1.syncRawJpeg = w.syncRawJpeg := by
  induction fuel with
  | zero =>
    intro w f stem ext fullName out h
    simp [addUidLoop] at h
  | succ n ih =>
    intro w f stem ext fullName out h
    simp only [addUidLoop] at h
    split at h
    · simpa using ih _ _ _ _ _ _ h
    · split at h <;> (rw [Option.some_inj] at h; subst h; simp [Fs.rename])

/-- `add_unique_identifier` never touches the preference values, the sequence
state, the downloads-today tracker or the pairing tracker. -/
theorem addUniqueIdentifier_state (w : Worker) (f : RpdFile) :
    (addUniqueIdentifier w f).1.prefs = w.prefs ∧
    (addUniqueIdentifier w f).1.sequences = w.sequences ∧
    (addUniqueIdentifier w f).1.downloadsToday = w.downloadsToday ∧
    (addUniqueIdentifier w f).1.syncRawJpeg = w.syncRawJpeg := by
  unfold addUniqueIdentifier
  cases h : addUidLoop (w.fs.files.length + 1) w f (splitext f.downloadName).1
      (splitext f.downloadName).2 f.downloadFullFileName with
  | none => simp [h]
  | some out => simpa [h] using addUidLoop_state _ _ _ _ _ _ out h

/-- `move_file` never touches the preference values, the sequence state, the
downloads-today tracker or the pairing tracker. -/
theorem moveFile_state (w : Worker) (f : RpdFile) :
    (moveFile w f).1.prefs = w.prefs ∧ (moveFile w f).1.sequences = w.sequences ∧
    (moveFile w f).1.downloadsToday = w.downloadsToday ∧
    (moveFile w f).1.syncRawJpeg = w.syncRawJpeg := by
  simp only [moveFile]
  split
  · split
    · simpa using addUniqueIdentifier_state _ _
    · simp
  · split
    · simp [Fs.rename]
    · simp

/-- The sidecar block never touches the preference values, the sequence state,
the downloads-today tracker, the pairing tracker or the duplicate-suffix dict —
and it never changes the file's status or recorded problems, whether or not the
sidecar renames succeed. -/
theorem sidecarPhase_state (w : Worker) (f : RpdFile) :
    (sidecarPhase w f).1.prefs = w.prefs ∧ (sidecarPhase w f).1.sequences = w.sequences ∧
    (sidecarPhase w f).1.downloadsToday = w.downloadsToday ∧
    (sidecarPhase w f).1.syncRawJpeg = w.syncRawJpeg ∧
    (sidecarPhase w f).1.duplicateFiles = w.duplicateFiles ∧
    (sidecarPhase w f).2.status = f.status ∧
    (sidecarPhase w f).2.problems = f.problems := by
  unfold sidecarPhase
  cases h1 : f.tempThmFullName <;> cases h2 : f.tempAudioFullName <;>
    cases h3 : f.tempXmpFullName <;>
      simp only [h1, h2, h3, moveAssociateFile, Fs.rename] <;>
      (try split_ifs) <;> simp

/-- `sync_raw_jpg` never touches the filesystem, the duplicate-suffix dict, the
pairing tracker, the preference values, the downloads-today tracker, the
session sequence number or the sequence letter (it may set the matched slot). -/
theorem syncRawJpg_state (w : Worker) (f : RpdFile) :
    (syncRawJpg w f).1.prefs = w.prefs ∧
    (syncRawJpg w f).1.downloadsToday = w.downloadsToday ∧
    (syncRawJpg w f).1.fs = w.fs ∧
    (syncRawJpg w f).1.duplicateFiles = w.duplicateFiles ∧
    (syncRawJpg w f).1.syncRawJpeg = w.syncRawJpeg ∧
    (syncRawJpg w f).1.sequences.sessionSequenceNo = w.sequences.sessionSequenceNo ∧
    (syncRawJpg w f).1.sequences.sequenceLetter = w.sequences.sequenceLetter := by
  unfold syncRawJpg
  cases f.metadata
  · simp [Sequences.setMatchedSequenceValue]
  · simp only [Sequences.setMatchedSequenceValue]
    split_ifs <;> simp

/-- The counter-advance block, written out: it bumps the session/letter pair
through `increment`, the stored sequence number when referenced, and the
downloads-today count. -/
theorem bookkeepAdvance_eq (w : Worker) :
    bookkeepAdvance w =
      { w with
        sequences := w.sequences.increment w.prefs.usesSessionSequenceNo
          w.prefs.usesSequenceLetter
        prefs :=
          if w.prefs.usesStoredSequenceNo then
            { w.prefs with storedSequenceNo := w.prefs.storedSequenceNo + 1 }
          else w.prefs
        downloadsToday := w.downloadsToday.incrementDownloadsToday } := by
  unfold bookkeepAdvance
  by_cases h1 : w.prefs.usesSessionSequenceNo = true <;>
    by_cases h2 : w.prefs.usesSequenceLetter = true <;>
      by_cases h3 : w.prefs.usesStoredSequenceNo = true <;>
        simp_all [Sequences.increment]

/-- The bookkeeping block advances each sequence counter by at most one. -/
theorem bookkeep_counters (w : Worker) (f : RpdFile) (syncRJ : Bool)
    (syncRes : Option SyncRawJpegResult) :
    ((bookkeep w f syncRJ syncRes).sequences.sessionSequenceNo = w.sequences.sessionSequenceNo ∨
      (bookkeep w f syncRJ syncRes).sequences.sessionSequenceNo =
        w.sequences.sessionSequenceNo + 1) ∧
    ((bookkeep w f syncRJ syncRes).sequences.sequenceLetter = w.sequences.sequenceLetter ∨
      (bookkeep w f syncRJ syncRes).sequences.sequenceLetter = w.sequences.sequenceLetter + 1) ∧
    ((bookkeep w f syncRJ syncRes).prefs.storedSequenceNo = w.prefs.storedSequenceNo ∨
      (bookkeep w f syncRJ syncRes).prefs.storedSequenceNo = w.prefs.storedSequenceNo + 1) ∧
    ((bookkeep w f syncRJ syncRes).downloadsToday.count = w.downloadsToday.count ∨
      (bookkeep w f syncRJ syncRes).downloadsToday.count = w.downloadsToday.count + 1) := by
  unfold bookkeep
  cases syncRJ <;> cases syncRes <;>
    simp [bookkeepAdvance_eq, Sequences.increment,
      DownloadsTodayTracker.incrementDownloadsToday] <;>
    split_ifs <;>
    simp [Sequences.increment, DownloadsTodayTracker.incrementDownloadsToday]

/-- C1: within the processing of one file request, the sequence counters
(session sequence number, sequence letter index, stored sequence number,
downloads-today count) are advanced at most once each, and the advance happens
only in the bookkeeping block guarded by a confirmed successful move: a file
whose sync check, name generation or move fails advances no counter at all. -/
theorem processFile_counters (w : Worker) (f : RpdFile) :
    ((processFile w f).2.2 = false →
      (processFile w f).1.sequences.sessionSequenceNo = w.sequences.sessionSequenceNo ∧
      (processFile w f).1.sequences.sequenceLetter = w.sequences.sequenceLetter ∧
      (processFile w f).1.prefs.storedSequenceNo = w.prefs.storedSequenceNo ∧
      (processFile w f).1.downloadsToday.count = w.downloadsToday.count) ∧
    ((processFile w f).1.sequences.sessionSequenceNo = w.sequences.sessionSequenceNo ∨
      (processFile w f).1.sequences.sessionSequenceNo = w.sequences.sessionSequenceNo + 1) ∧
    ((processFile w f).1.sequences.sequenceLetter = w.sequences.sequenceLetter ∨
      (processFile w f).1.sequences.sequenceLetter = w.sequences.sequenceLetter + 1) ∧
    ((processFile w f).1.prefs.storedSequenceNo = w.prefs.storedSequenceNo ∨
      (processFile w f).1.prefs.storedSequenceNo = w.prefs.storedSequenceNo + 1) ∧
    ((processFile w f).1.downloadsToday.count = w.downloadsToday.count ∨
      (processFile w f).1.downloadsToday.count = w.downloadsToday.count + 1) := by
  simp only [processFile]
  split
  · -- RAW+JPEG synchronisation active
    dsimp only
    obtain ⟨y1, y2, y3, y4, y5, y6, y7⟩ :=
      syncRawJpg_state w (prepareRpdFile w.prefs f)
    split
    · -- the sync check failed: nothing advanced
      refine ⟨fun _ => ⟨y6, y7, by rw [y1], by rw [y2]⟩, Or.inl y6, Or.inl y7,
        Or.inl (by rw [y1]), Or.inl (by rw [y2])⟩
    · split
      · -- names generated: attempt the move
        obtain ⟨m1, m2, m3, m4⟩ :=
          moveFile_state (syncRawJpg w (prepareRpdFile w.prefs f)).1
            (generateNames (syncRawJpg w (prepareRpdFile w.prefs f)).2.1).1
        split
        · -- move succeeded: bookkeeping runs once, sidecars change nothing
          obtain ⟨s1, s2, s3, s4, s5, s6, s7⟩ :=
            sidecarPhase_state
              (bookkeep
                (moveFile (syncRawJpg w (prepareRpdFile w.prefs f)).1
                  (generateNames (syncRawJpg w (prepareRpdFile w.prefs f)).2.1).1).1
                (moveFile (syncRawJpg w (prepareRpdFile w.prefs f)).1
                  (generateNames (syncRawJpg w (prepareRpdFile w.prefs f)).2.1).1).2.1
                (w.prefs.mustSynchronizeRawJpg && (prepareRpdFile w.prefs f).isPhoto)
                (some (syncRawJpg w (prepareRpdFile w.prefs f)).2.2))
              (moveFile (syncRawJpg w (prepareRpdFile w.prefs f)).1
                (generateNames (syncRawJpg w (prepareRpdFile w.prefs f)).2.1).1).2.1
          obtain ⟨b1, b2, b3, b4⟩ :=
            bookkeep_counters
              (moveFile (syncRawJpg w (prepareRpdFile w.prefs f)).1
                (generateNames (syncRawJpg w (prepareRpdFile w.prefs f)).2.1).1).1
              (moveFile (syncRawJpg w (prepareRpdFile w.prefs f)).1
                (generateNames (syncRawJpg w (prepareRpdFile w.prefs f)).2.1).1).2.1
              (w.prefs.mustSynchronizeRawJpg && (prepareRpdFile w.prefs f).isPhoto)
              (some (syncRawJpg w (prepareRpdFile w.prefs f)).2.2)
          refine ⟨fun hc => absurd hc (by simp), ?_, ?_, ?_, ?_⟩
          · rw [s2]; rcases b1 with h | h <;> rw [h, m2, y6] <;> simp
          · rw [s2]; rcases b2 with h | h <;> rw [h, m2, y7] <;> simp
          · rw [s1]; rcases b3 with h | h <;> rw [h, m1, y1] <;> simp
          · rw [s3]; rcases b4 with h | h <;> rw [h, m3, y2] <;> simp
        · -- move failed: nothing advanced
          refine ⟨fun _ => ⟨by rw [m2, y6], by rw [m2, y7], by rw [m1, y1], by rw [m3, y2]⟩,
            Or.inl (by rw [m2, y6]), Or.inl (by rw [m2, y7]),
            Or.inl (by rw [m1, y1]), Or.inl (by rw [m3, y2])⟩
      · -- name generation failed: nothing advanced
        refine ⟨fun _ => ⟨y6, y7, by rw [y1], by rw [y2]⟩, Or.inl y6, Or.inl y7,
          Or.inl (by rw [y1]), Or.inl (by rw [y2])⟩
  · -- synchronisation off
    dsimp only
    split
    · -- unreachable guard branch, still counter-preserving
      exact ⟨fun _ => ⟨rfl, rfl, rfl, rfl⟩, Or.inl rfl, Or.inl rfl, Or.inl rfl, Or.inl rfl⟩
    · split
      · obtain ⟨m1, m2, m3, m4⟩ :=
          moveFile_state w (generateNames (prepareRpdFile w.prefs f)).1
        split
        · obtain ⟨s1, s2, s3, s4, s5, s6, s7⟩ :=
            sidecarPhase_state
              (bookkeep (moveFile w (generateNames (prepareRpdFile w.prefs f)).1).1
                (moveFile w (generateNames (prepareRpdFile w.prefs f)).1).2.1
                (w.prefs.mustSynchronizeRawJpg && (prepareRpdFile w.prefs f).isPhoto) none)
              (moveFile w (generateNames (prepareRpdFile w.prefs f)).1).2.1
          obtain ⟨b1, b2, b3, b4⟩ :=
            bookkeep_counters (moveFile w (generateNames (prepareRpdFile w.prefs f)).1).1
              (moveFile w (generateNames (prepareRpdFile w.prefs f)).1).2.1
              (w.prefs.mustSynchronizeRawJpg && (prepareRpdFile w.prefs f).isPhoto) none
          refine ⟨fun hc => absurd hc (by simp), ?_, ?_, ?_, ?_⟩
          · rw [s2]; rcases b1 with h | h <;> rw [h, m2] <;> simp
          · rw [s2]; rcases b2 with h | h <;> rw [h, m2] <;> simp
          · rw [s1]; rcases b3 with h | h <;> rw [h, m1] <;> simp
          · rw [s3]; rcases b4 with h | h <;> rw [h, m3] <;> simp
        · refine ⟨fun _ => ⟨by rw [m2], by rw [m2], by rw [m1], by rw [m3]⟩,
            Or.inl (by rw [m2]), Or.inl (by rw [m2]), Or.inl (by rw [m1]), Or.inl (by rw [m3])⟩
      · exact ⟨fun _ => ⟨rfl, rfl, rfl, rfl⟩, Or.inl rfl, Or.inl rfl, Or.inl rfl, Or.inl rfl⟩

/-- C1 witness: at a concrete failing request (empty generated subfolder and
name) the counters are untouched, and the at-most-once bounds hold. -/
theorem processFile_counters_check :
    (processFile workerC2 { mkReq "Z.JPG" "" "tmp/z" 1 1 with genSubfolder := "" }).2.2 = false ∧
    (processFile workerC2
        { mkReq "Z.JPG" "" "tmp/z" 1 1 with genSubfolder := "" }).1.downloadsToday.count =
      workerC2.downloadsToday.count :=
  ⟨by decide,
    ((processFile_counters workerC2
      { mkReq "Z.JPG" "" "tmp/z" 1 1 with genSubfolder := "" }).1 (by decide)).2.2.2⟩

/-- If `sync_raw_jpg` fails the file, then either the metadata read failed, or
the file is an exact already-downloaded duplicate rejected by the conflict
policy. -/
theorem syncRawJpg_failed (w : Worker) (g : RpdFile)
    (h : (syncRawJpg w g).2.2.failed = true) :
    g.metadata = none ∨
      ∃ m, g.metadata = some m ∧
        (matchingPair w.syncRawJpeg (splitext g.name).1 (splitext g.name).2 m.dateTime
          m.subSeconds).status = .errorAlreadyDownloaded ∧
        w.prefs.conflictResolution ≠ .addIdentifier := by
  cases hm : g.metadata with
  | none => exact Or.inl rfl
  | some m =>
    right
    refine ⟨m, rfl, ?_⟩
    simp only [syncRawJpg, hm] at h
    split_ifs at h
    all_goals simp_all

/-- `sync_raw_jpg` never changes the request fields of the file. -/
theorem syncRawJpg_file_fields (w : Worker) (g : RpdFile) :
    (syncRawJpg w g).2.1.metadata = g.metadata ∧
    (syncRawJpg w g).2.1.genSubfolder = g.genSubfolder ∧
    (syncRawJpg w g).2.1.genName = g.genName ∧
    (syncRawJpg w g).2.1.nameGenProblem = g.nameGenProblem ∧
    (syncRawJpg w g).2.1.downloadName = g.downloadName ∧
    (syncRawJpg w g).2.1.downloadSubfolder = g.downloadSubfolder ∧
    (syncRawJpg w g).2.1.downloadFolder = g.downloadFolder ∧
    (syncRawJpg w g).2.1.name = g.name ∧
    (syncRawJpg w g).2.1.tempFullFileName = g.tempFullFileName := by
  cases hm : g.metadata with
  | none =>
    simp only [syncRawJpg, hm, loadMetadata, checkForFatalNameGenerationErrors, addProblem]
    split_ifs <;> simp
  | some m =>
    simp only [syncRawJpg, hm]
    split_ifs <;> simp [sameNameDifferentExif, addProblem, hm]

/-- When the metadata read fails in `sync_raw_jpg`, the fatal name-generation
check has already recorded the empty-name problem and failed the file. -/
theorem syncRawJpg_noMeta_conclusions (w : Worker) (g : RpdFile)
    (hsub : g.downloadSubfolder = "") (hname : g.downloadName = "")
    (hm : g.metadata = none) :
    (syncRawJpg w g).2.1.status = .downloadFailed ∧
    Problem.errorInNameGeneration (nameArea (syncRawJpg w g).2.1) ∈
      (syncRawJpg w g).2.1.problems ∧
    ((syncRawJpg w g).2.1.downloadSubfolder = "" ∨ (syncRawJpg w g).2.1.downloadName = "") := by
  simp [syncRawJpg, hm, loadMetadata, checkForFatalNameGenerationErrors, addProblem,
    nameArea, hsub, hname]

/-- If the generated subfolder or filename degrades to the empty string,
`generate_names` fails the file with the empty-name problem naming the empty
area. -/
theorem generateNames_empty (f : RpdFile) (hname : f.downloadName = "")
    (hempty : f.metadata = none ∨ f.genSubfolder = "" ∨ f.genName = "") :
    (generateNames f).2 = false ∧
    (generateNames f).1.status = .downloadFailed ∧
    Problem.errorInNameGeneration (nameArea (generateNames f).1) ∈
      (generateNames f).1.problems ∧
    ((generateNames f).1.downloadSubfolder = "" ∨ (generateNames f).1.downloadName = "") := by
  cases hm : f.metadata with
  | none =>
    simp [generateNames, generateSubfolder, generateName, loadMetadata, hm,
      checkForFatalNameGenerationErrors, addProblem, nameArea, hname]
  | some m =>
    rcases hempty with h | h | h
    · rw [hm] at h; exact Option.noConfusion h
    · simp [generateNames, generateSubfolder, generateName, loadMetadata, hm, h,
        checkForFatalNameGenerationErrors, addProblem, nameArea, hname]
    · by_cases hs : f.genSubfolder = ""
      · simp [generateNames, generateSubfolder, generateName, loadMetadata, hm, hs,
          checkForFatalNameGenerationErrors, addProblem, nameArea, hname]
      · simp only [generateNames, generateSubfolder, generateName, loadMetadata, hm, hname]
        split_ifs <;>
          simp_all [checkForFatalNameGenerationErrors, addProblem, nameArea, hname, hs, h]

/-- C5: a fresh file request whose generated subfolder string or generated
filename string is empty (including by a failed metadata read) fails before any
filesystem operation — neither a directory is created nor a rename attempted —
ends with status download-failed, and carries the name-generation problem
naming which of subfolder, filename or both is empty.  (The one hypothesis
beyond emptiness excludes the unrelated early rejection of an exact RAW+JPEG
duplicate, which fails the file before name generation is reached.) -/
theorem processFile_fatalNameGeneration (w : Worker) (f : RpdFile)
    (hname : f.downloadName = "") (hsub : f.downloadSubfolder = "")
    (hempty : f.metadata = none ∨ f.genSubfolder = "" ∨ f.genName = "")
    (hdup : ¬∃ m, f.metadata = some m ∧
      (matchingPair w.syncRawJpeg (splitext f.name).1 (splitext f.name).2 m.dateTime
        m.subSeconds).status = .errorAlreadyDownloaded ∧
      w.prefs.conflictResolution ≠ .addIdentifier) :
    (processFile w f).2.2 = false ∧
    (processFile w f).1.fs = w.fs ∧
    (processFile w f).2.1.status = .downloadFailed ∧
    Problem.errorInNameGeneration (nameArea (processFile w f).2.1) ∈
      (processFile w f).2.1.problems ∧
    ((processFile w f).2.1.downloadSubfolder = "" ∨ (processFile w f).2.1.downloadName = "") := by
  have hfields : (prepareRpdFile w.prefs f).metadata = f.metadata ∧
      (prepareRpdFile w.prefs f).genSubfolder = f.genSubfolder ∧
      (prepareRpdFile w.prefs f).genName = f.genName ∧
      (prepareRpdFile w.prefs f).downloadName = f.downloadName ∧
      (prepareRpdFile w.prefs f).downloadSubfolder = f.downloadSubfolder ∧
      (prepareRpdFile w.prefs f).name = f.name := by
    simp [prepareRpdFile]
  simp only [processFile]
  split
  · -- synchronisation active
    dsimp only
    obtain ⟨y1, y2, y3, y4, y5, y6, y7⟩ := syncRawJpg_state w (prepareRpdFile w.prefs f)
    obtain ⟨g1, g2, g3, g4, g5, g6, g7, g8, g9⟩ :=
      syncRawJpg_file_fields w (prepareRpdFile w.prefs f)
    split
    case isTrue hfail =>
      rcases syncRawJpg_failed w (prepareRpdFile w.prefs f) hfail with hmnone | hdupcase
      · rw [hfields.1] at hmnone
        obtain ⟨c1, c2, c3⟩ := syncRawJpg_noMeta_conclusions w (prepareRpdFile w.prefs f)
          (by rw [hfields.2.2.2.2.1, hsub]) (by rw [hfields.2.2.2.1, hname])
          (by rw [hfields.1, hmnone])
        exact ⟨rfl, y3, c1, c2, c3⟩
      · exfalso
        apply hdup
        rw [hfields.1] at hdupcase
        simpa [prepareRpdFile] using hdupcase
    case isFalse hfail =>
      have hng := generateNames_empty (syncRawJpg w (prepareRpdFile w.prefs f)).2.1
        (by rw [g5, hfields.2.2.2.1, hname])
        (by rcases hempty with h | h | h
            · exact Or.inl (by rw [g1, hfields.1, h])
            · exact Or.inr (Or.inl (by rw [g2, hfields.2.1, h]))
            · exact Or.inr (Or.inr (by rw [g3, hfields.2.2.1, h])))
      split
      case isTrue hgen => rw [hng.1] at hgen; exact Bool.noConfusion hgen
      case isFalse hgen =>
        exact ⟨rfl, y3, hng.2.1, hng.2.2.1, hng.2.2.2⟩
  · -- synchronisation off
    dsimp only
    split
    case isTrue hguard => exact Bool.noConfusion hguard
    case isFalse hguard =>
      have hng := generateNames_empty (prepareRpdFile w.prefs f)
        (by rw [hfields.2.2.2.1, hname])
        (by rcases hempty with h | h | h
            · exact Or.inl (by rw [hfields.1, h])
            · exact Or.inr (Or.inl (by rw [hfields.2.1, h]))
            · exact Or.inr (Or.inr (by rw [hfields.2.2.1, h])))
      split
      case isTrue hgen => rw [hng.1] at hgen; exact Bool.noConfusion hgen
      case isFalse hgen =>
        exact ⟨rfl, rfl, hng.2.1, hng.2.2.1, hng.2.2.2⟩

/-- C5 witness: a concrete request whose generated filename is empty is failed
with the filename-area problem and no filesystem change. -/
theorem processFile_fatalNameGeneration_check :
    ((processFile workerC2 { mkReq "E.JPG" "" "tmp/e" 1 1 with genName := "" }).2.2 = false ∧
     (processFile workerC2 { mkReq "E.JPG" "" "tmp/e" 1 1 with genName := "" }).1.fs =
       workerC2.fs ∧
     (processFile workerC2 { mkReq "E.JPG" "" "tmp/e" 1 1 with genName := "" }).2.1.status =
       .downloadFailed ∧
     Problem.errorInNameGeneration
         (nameArea (processFile workerC2 { mkReq "E.JPG" "" "tmp/e" 1 1 with genName := "" }).2.1) ∈
       (processFile workerC2 { mkReq "E.JPG" "" "tmp/e" 1 1 with genName := "" }).2.1.problems ∧
     ((processFile workerC2
           { mkReq "E.JPG" "" "tmp/e" 1 1 with genName := "" }).2.1.downloadSubfolder = "" ∨
       (processFile workerC2
           { mkReq "E.JPG" "" "tmp/e" 1 1 with genName := "" }).2.1.downloadName = "")) :=
  processFile_fatalNameGeneration workerC2 { mkReq "E.JPG" "" "tmp/e" 1 1 with genName := "" }
    (by decide) (by decide) (by decide) (by decide)

/-- When the file is not an exact already-downloaded duplicate, `sync_raw_jpg`
does not fail it: the result carries the matching-pair sequence number and the
matched slot of the sequence state is set to it. -/
theorem syncRawJpg_result_notAlready (w : Worker) (g : RpdFile) (m : Meta)
    (hm : g.metadata = some m)
    (hnd : (matchingPair w.syncRawJpeg (splitext g.name).1 (splitext g.name).2 m.dateTime
      m.subSeconds).status ≠ .errorAlreadyDownloaded) :
    (syncRawJpg w g).2.2 =
      ⟨(matchingPair w.syncRawJpeg (splitext g.name).1 (splitext g.name).2 m.dateTime
        m.subSeconds).sequenceNumber, false, (splitext g.name).1, (splitext g.name).2⟩ ∧
    (syncRawJpg w g).1 =
      { w with
        sequences := w.sequences.setMatchedSequenceValue
          (matchingPair w.syncRawJpeg (splitext g.name).1 (splitext g.name).2 m.dateTime
            m.subSeconds).sequenceNumber } := by
  simp only [syncRawJpg, hm]
  split_ifs with h1 h2
  · exact absurd h1 hnd
  · exact absurd h1 hnd
  · simp
  · simp

/-- When the metadata is present and both generated strings are non-empty,
`generate_names` succeeds and installs the generated strings. -/
theorem generateNames_ok_fields (g : RpdFile) (m : Meta) (hm : g.metadata = some m)
    (hg : g.genSubfolder ≠ "") (hgn : g.genName ≠ "") :
    (generateNames g).2 = true ∧
    (generateNames g).1.downloadSubfolder = g.genSubfolder ∧
    (generateNames g).1.downloadName = g.genName ∧
    (generateNames g).1.downloadFolder = g.downloadFolder ∧
    (generateNames g).1.tempFullFileName = g.tempFullFileName ∧
    (generateNames g).1.metadata = g.metadata := by
  simp only [generateNames, generateSubfolder, generateName, loadMetadata, hm]
  split_ifs with h1 h2 h3 <;>
    simp_all [checkForFatalNameGenerationErrors, addProblem, hm]

/-- When the destination is free and the temp file exists, `move_file` succeeds
by the direct rename. -/
theorem moveFile_success_eq (w : Worker) (g : RpdFile)
    (hdest : pathJoin (pathJoin g.downloadFolder g.downloadSubfolder) g.downloadName ∉
      w.fs.files)
    (htemp : g.tempFullFileName ∈ w.fs.files) :
    (moveFile w g).2.2 = true ∧
    (moveFile w g).1 =
      { w with
        fs := (w.fs.mkdirs (pathJoin g.downloadFolder g.downloadSubfolder)).rename
          g.tempFullFileName
          (pathJoin (pathJoin g.downloadFolder g.downloadSubfolder) g.downloadName) } ∧
    (moveFile w g).2.1.metadata = g.metadata := by
  simp only [moveFile]
  rw [if_neg (by simpa [Fs.mkdirs, pathJoin] using hdest)]
  rw [if_pos (by simpa [Fs.mkdirs] using htemp)]
  dsimp only
  split_ifs <;> simp [Fs.mkdirs]

/-- The bookkeeping block records the placement in the pairing tracker with the
matched sequence value when one exists, else with the freshly created one. -/
theorem bookkeep_sync_tracker (w : Worker) (g : RpdFile) (b : Bool) (hb : b = true)
    (sr : SyncRawJpegResult) :
    (bookkeep w g b (some sr)).syncRawJpeg =
      addDownload w.syncRawJpeg sr.photoName sr.photoExt (g.metadata.getD ⟨0, 0⟩).dateTime
        (g.metadata.getD ⟨0, 0⟩).subSeconds
        (match sr.sequenceToUse with
          | none => w.sequences.createMatchedSequences
          | some s => s) := by
  subst hb
  unfold bookkeep
  split_ifs <;> simp_all [bookkeepAdvance_eq, Sequences.increment,
    DownloadsTodayTracker.incrementDownloadsToday]

/-- A placement that reuses a matched sequence value consumes no counter
increment at all. -/
theorem bookkeep_matched_counters (w : Worker) (g : RpdFile) (b : Bool) (hb : b = true)
    (sr : SyncRawJpegResult) (hs : sr.sequenceToUse.isNone = false) :
    (bookkeep w g b (some sr)).sequences = w.sequences ∧
    (bookkeep w g b (some sr)).prefs = w.prefs ∧
    (bookkeep w g b (some sr)).downloadsToday = w.downloadsToday := by
  subst hb
  unfold bookkeep
  simp [hs]

/-- The bookkeeping block never changes the matched-sequence slot. -/
theorem bookkeep_matched_slot (w : Worker) (g : RpdFile) (b : Bool)
    (r : Option SyncRawJpegResult) :
    (bookkeep w g b r).sequences.matchedSequences = w.sequences.matchedSequences := by
  unfold bookkeep
  cases b <;> cases r <;> simp [bookkeepAdvance_eq, Sequences.increment]
  all_goals (split_ifs <;> simp [Sequences.increment])

/-- The bookkeeping block never changes the preference values other than the
stored sequence number. -/
theorem bookkeep_prefs_flags (w : Worker) (g : RpdFile) (b : Bool)
    (r : Option SyncRawJpegResult) :
    (bookkeep w g b r).prefs.mustSynchronizeRawJpg = w.prefs.mustSynchronizeRawJpg ∧
    (bookkeep w g b r).prefs.photoDownloadFolder = w.prefs.photoDownloadFolder ∧
    (bookkeep w g b r).prefs.videoDownloadFolder = w.prefs.videoDownloadFolder ∧
    (bookkeep w g b r).prefs.conflictResolution = w.prefs.conflictResolution ∧
    (bookkeep w g b r).prefs.usesStoredSequenceNo = w.prefs.usesStoredSequenceNo := by
  unfold bookkeep
  cases b <;> cases r <;> simp [bookkeepAdvance_eq] <;> split_ifs <;> simp

/-- Appending a record for an unseen base name makes it the lookup result. -/
theorem lookupPhoto_append (t : SyncPhotos) (k : String) (r : PhotoRec)
    (h : lookupPhoto t k = none) : lookupPhoto (t ++ [(k, r)]) k = some r := by
  induction t with
  | nil => simp [lookupPhoto]
  | cons p t ih =>
    obtain ⟨a, b⟩ := p
    by_cases ha : a = k
    · simp [lookupPhoto, ha] at h
    · simp only [lookupPhoto, if_neg ha] at h
      simp only [List.cons_append, lookupPhoto, if_neg ha]
      exact ih h

/-- A base name with no lookup result has no entry at all. -/
theorem countP_eq_zero_of_lookup_none (t : SyncPhotos) (k : String)
    (h : lookupPhoto t k = none) :
    t.countP (fun p => decide (p.1 = k)) = 0 := by
  induction t with
  | nil => simp
  | cons p t ih =>
    obtain ⟨a, b⟩ := p
    by_cases ha : a = k
    · simp [lookupPhoto, ha] at h
    · simp only [lookupPhoto, if_neg ha] at h
      simp [List.countP_cons, ha, ih h]

/-- Extending the extension list of an existing record is visible in lookup. -/
theorem lookupPhoto_addExt (t : SyncPhotos) (k e : String) (r : PhotoRec)
    (h : lookupPhoto t k = some r) :
    lookupPhoto (addExtToPhoto t k e) k =
      some (if e ∈ r.extensions then r else { r with extensions := r.extensions ++ [e] }) := by
  induction t with
  | nil => simp [lookupPhoto] at h
  | cons p t ih =>
    obtain ⟨a, b⟩ := p
    by_cases ha : a = k
    · simp only [lookupPhoto, if_pos ha] at h
      rw [Option.some_inj] at h
      subst h
      simp [addExtToPhoto, lookupPhoto, ha]
    · simp only [lookupPhoto, if_neg ha] at h
      simp only [addExtToPhoto, if_neg ha]
      simp only [lookupPhoto, if_neg ha]
      exact ih h

/-- Extending an extension list never changes how many entries a base name
has. -/
theorem countP_addExt (t : SyncPhotos) (k e : String) :
    (addExtToPhoto t k e).countP (fun p => decide (p.1 = k)) =
      t.countP (fun p => decide (p.1 = k)) := by
  induction t with
  | nil => simp [addExtToPhoto]
  | cons p t ih =>
    obtain ⟨a, b⟩ := p
    by_cases ha : a = k <;> simp [addExtToPhoto, ha, List.countP_cons, ih]

/-- A successful `move_file` leaves the file with status downloaded, or
downloaded-with-warning when it already carried that status. -/
theorem moveFile_success_status (w : Worker) (f : RpdFile) :
    (moveFile w f).2.2 = true →
      (moveFile w f).2.1.status = .downloaded ∨
      (moveFile w f).2.1.status = .downloadedWithWarning := by
  simp only [moveFile]
  split
  · split
    · intro hc; exact absurd hc (by simp)
    · intro hc; exact absurd hc (by simp)
  · split
    · intro _
      dsimp only
      split
      · exact Or.inl rfl
      · rename_i hst
        simp only [ne_eq, not_not] at hst
        exact Or.inr hst
    · intro hc; exact absurd hc (by simp)

/-- C7 (amended): a session-started message re-initializes the sequence state
(session counters and matched slot reset) and re-loads and rolls the
downloads-today tracker from the preference values against the current
day-start-adjusted date — but it does not clear the RAW+JPEG pairing tracker
(created once per worker) or the per-destination duplicate-suffix dict (created
once per run), which keep any previous session's entries. -/
theorem step_downloadStarted (w : Worker) (today : Int) :
    (step w (.downloadStarted today)).1.sequences = ⟨0, 0, none⟩ ∧
    (step w (.downloadStarted today)).1.downloadsToday =
      (DownloadsTodayTracker.mk w.prefs.downloadsTodayDate
        w.prefs.downloadsTodayCount).getOrResetDownloadsToday today ∧
    (step w (.downloadStarted today)).1.syncRawJpeg = w.syncRawJpeg ∧
    (step w (.downloadStarted today)).1.duplicateFiles = w.duplicateFiles ∧
    (step w (.downloadStarted today)).1.prefs = w.prefs ∧
    (step w (.downloadStarted today)).1.fs = w.fs ∧
    (step w (.downloadStarted today)).2 = none := by
  simp [step]

/-- C8 (amended): a file reported as successfully placed keeps a success status
(downloaded or downloaded-with-warning, never download-failed), and the sidecar
block — THM thumbnail, audio and XMP moves — never changes any file's status or
recorded problems, whether or not a sidecar rename fails: a sidecar failure is
only logged, not recorded as a problem on the reported result. -/
theorem sidecarFailure_leaves_primary (w : Worker) (f : RpdFile)
    (h : (processFile w f).2.2 = true) :
    ((processFile w f).2.1.status = .downloaded ∨
      (processFile w f).2.1.status = .downloadedWithWarning) ∧
    (∀ (w2 : Worker) (g : RpdFile),
      (sidecarPhase w2 g).2.status = g.status ∧ (sidecarPhase w2 g).2.problems = g.problems) := by
  refine ⟨?_, fun w2 g => ⟨(sidecarPhase_state w2 g).2.2.2.2.2.1,
    (sidecarPhase_state w2 g).2.2.2.2.2.2⟩⟩
  revert h
  simp only [processFile]
  split
  · dsimp only
    split
    · intro hc; exact absurd hc (by simp)
    · split
      · split
        · rename_i hmv
          intro _
          have hs := (sidecarPhase_state
            (bookkeep
              (moveFile (syncRawJpg w (prepareRpdFile w.prefs f)).1
                (generateNames (syncRawJpg w (prepareRpdFile w.prefs f)).2.1).1).1
              (moveFile (syncRawJpg w (prepareRpdFile w.prefs f)).1
                (generateNames (syncRawJpg w (prepareRpdFile w.prefs f)).2.1).1).2.1
              (w.prefs.mustSynchronizeRawJpg && (prepareRpdFile w.prefs f).isPhoto)
              (some (syncRawJpg w (prepareRpdFile w.prefs f)).2.2))
            (moveFile (syncRawJpg w (prepareRpdFile w.prefs f)).1
              (generateNames (syncRawJpg w (prepareRpdFile w.prefs f)).2.1).1).2.1).2.2.2.2.2.1
          rw [hs]
          exact moveFile_success_status _ _ hmv
        · intro hc; exact absurd hc (by simp)
      · intro hc; exact absurd hc (by simp)
  · dsimp only
    split
    · intro hc; exact Bool.noConfusion hc
    · split
      · split
        · rename_i hmv
          intro _
          have hs := (sidecarPhase_state
            (bookkeep (moveFile w (generateNames (prepareRpdFile w.prefs f)).1).1
              (moveFile w (generateNames (prepareRpdFile w.prefs f)).1).2.1
              (w.prefs.mustSynchronizeRawJpg && (prepareRpdFile w.prefs f).isPhoto) none)
            (moveFile w (generateNames (prepareRpdFile w.prefs f)).1).2.1).2.2.2.2.2.1
          rw [hs]
          exact moveFile_success_status _ _ hmv
        · intro hc; exact absurd hc (by simp)
      · intro hc; exact absurd hc (by simp)

/-- C8 witness: the amended statement applied at the concrete scenario with a
failing THM sidecar. -/
theorem sidecarFailure_leaves_primary_check :
    (processFile workerC8
        { mkReq "M.JPG" "M.JPG" "t/m1" 2 2 with tempThmFullName := some "t/thm" }).2.2 = true ∧
    (((processFile workerC8
          { mkReq "M.JPG" "M.JPG" "t/m1" 2 2 with
            tempThmFullName := some "t/thm" }).2.1.status = .downloaded ∨
        (processFile workerC8
          { mkReq "M.JPG" "M.JPG" "t/m1" 2 2 with
            tempThmFullName := some "t/thm" }).2.1.status = .downloadedWithWarning) ∧
      ∀ (w2 : Worker) (g : RpdFile),
        (sidecarPhase w2 g).2.status = g.status ∧
        (sidecarPhase w2 g).2.problems = g.problems) :=
  ⟨by decide,
    sidecarFailure_leaves_primary workerC8
      { mkReq "M.JPG" "M.JPG" "t/m1" 2 2 with tempThmFullName := some "t/thm" } (by decide)⟩

/-- A successful placement in RAW+JPEG synchronisation mode: the file is
reported placed; the pairing tracker records the base name with the matched
sequence value if one exists, else with the freshly created one; the matched
slot holds the pairing answer; a file that reused a matched value consumed no
counter; and the preference flags are unchanged. -/
theorem processFile_sync_success (w : Worker) (f : RpdFile)
    (hsync : w.prefs.mustSynchronizeRawJpg = true) (hp : f.isPhoto = true)
    (m : Meta) (hm : f.metadata = some m)
    (hnd : (matchingPair w.syncRawJpeg (splitext f.name).1 (splitext f.name).2 m.dateTime
      m.subSeconds).status ≠ .errorAlreadyDownloaded)
    (hg : f.genSubfolder ≠ "") (hgn : f.genName ≠ "")
    (hdest : pathJoin (pathJoin w.prefs.photoDownloadFolder f.genSubfolder) f.genName ∉
      w.fs.files)
    (htemp : f.tempFullFileName ∈ w.fs.files) :
    (processFile w f).2.2 = true ∧
    (processFile w f).1.syncRawJpeg =
      addDownload w.syncRawJpeg (splitext f.name).1 (splitext f.name).2 m.dateTime m.subSeconds
        (match (matchingPair w.syncRawJpeg (splitext f.name).1 (splitext f.name).2 m.dateTime
            m.subSeconds).sequenceNumber with
          | none => w.sequences.sessionSequenceNo
          | some s => s) ∧
    (processFile w f).1.sequences.matchedSequences =
      (matchingPair w.syncRawJpeg (splitext f.name).1 (splitext f.name).2 m.dateTime
        m.subSeconds).sequenceNumber ∧
    ((matchingPair w.syncRawJpeg (splitext f.name).1 (splitext f.name).2 m.dateTime
        m.subSeconds).sequenceNumber.isNone = false →
      (processFile w f).1.sequences.sessionSequenceNo = w.sequences.sessionSequenceNo ∧
      (processFile w f).1.sequences.sequenceLetter = w.sequences.sequenceLetter ∧
      (processFile w f).1.prefs.storedSequenceNo = w.prefs.storedSequenceNo ∧
      (processFile w f).1.downloadsToday.count = w.downloadsToday.count) ∧
    (processFile w f).1.prefs.mustSynchronizeRawJpg = w.prefs.mustSynchronizeRawJpg ∧
    (processFile w f).1.prefs.photoDownloadFolder = w.prefs.photoDownloadFolder ∧
    (processFile w f).1.prefs.usesStoredSequenceNo = w.prefs.usesStoredSequenceNo ∧
    (processFile w f).1.prefs.conflictResolution = w.prefs.conflictResolution := by
  have hmP : (prepareRpdFile w.prefs f).metadata = some m := hm
  have hndP : (matchingPair w.syncRawJpeg (splitext (prepareRpdFile w.prefs f).name).1
      (splitext (prepareRpdFile w.prefs f).name).2 m.dateTime m.subSeconds).status ≠
        .errorAlreadyDownloaded := hnd
  obtain ⟨hres, hwrk⟩ := syncRawJpg_result_notAlready w (prepareRpdFile w.prefs f) m hmP hndP
  obtain ⟨y1, y2, y3, y4, y5, y6, y7⟩ := syncRawJpg_state w (prepareRpdFile w.prefs f)
  obtain ⟨q1, q2, q3, q4, q5, q6, q7, q8, q9⟩ :=
    syncRawJpg_file_fields w (prepareRpdFile w.prefs f)
  have hgen := generateNames_ok_fields (syncRawJpg w (prepareRpdFile w.prefs f)).2.1 m
    (by rw [q1]; exact hmP) (by rw [q2]; exact hg) (by rw [q3]; exact hgn)
  have hdest2 : pathJoin
      (pathJoin (generateNames (syncRawJpg w (prepareRpdFile w.prefs f)).2.1).1.downloadFolder
        (generateNames (syncRawJpg w (prepareRpdFile w.prefs f)).2.1).1.downloadSubfolder)
      (generateNames (syncRawJpg w (prepareRpdFile w.prefs f)).2.1).1.downloadName ∉
        (syncRawJpg w (prepareRpdFile w.prefs f)).1.fs.files := by
    rw [hgen.2.2.2.1, hgen.2.1, hgen.2.2.1, q2, q3, q7, y3]
    simpa [prepareRpdFile, hp] using hdest
  have htemp2 : (generateNames
      (syncRawJpg w (prepareRpdFile w.prefs f)).2.1).1.tempFullFileName ∈
        (syncRawJpg w (prepareRpdFile w.prefs f)).1.fs.files := by
    rw [hgen.2.2.2.2.1, q9, y3]
    exact htemp
  obtain ⟨hmv, hmw, hmm⟩ := moveFile_success_eq (syncRawJpg w (prepareRpdFile w.prefs f)).1
    (generateNames (syncRawJpg w (prepareRpdFile w.prefs f)).2.1).1 hdest2 htemp2
  have hRJ : (w.prefs.mustSynchronizeRawJpg && (prepareRpdFile w.prefs f).isPhoto) = true := by
    simp [prepareRpdFile, hsync, hp]
  simp only [processFile]
  rw [if_pos hRJ]
  dsimp only
  have hnotfail : ¬((syncRawJpg w (prepareRpdFile w.prefs f)).2.2.failed = true) := by
    rw [hres]
    exact Bool.noConfusion
  rw [if_neg hnotfail, if_pos hgen.1, if_pos hmv]
  dsimp only
  refine ⟨rfl, ?_, ?_, ?_, ?_, ?_, ?_, ?_⟩
  · -- the pairing tracker
    rw [(sidecarPhase_state _ _).2.2.2.1, bookkeep_sync_tracker _ _ _ hRJ _, hmw, hres, hmm,
      hgen.2.2.2.2.2, q1, hmP, hwrk]
    cases hseq : (matchingPair w.syncRawJpeg (splitext f.name).1 (splitext f.name).2
        m.dateTime m.subSeconds).sequenceNumber <;>
      simp_all [prepareRpdFile, Sequences.setMatchedSequenceValue,
        Sequences.createMatchedSequences]
  · -- the matched slot
    rw [(sidecarPhase_state _ _).2.1, bookkeep_matched_slot, hmw, hwrk]
    simp [prepareRpdFile, Sequences.setMatchedSequenceValue]
  · -- no counter consumed on a matched reuse
    intro hmatch
    have hsno : (syncRawJpg w (prepareRpdFile w.prefs f)).2.2.sequenceToUse.isNone = false := by
      rw [hres]
      exact hmatch
    obtain ⟨c1, c2, c3⟩ := bookkeep_matched_counters
      (moveFile (syncRawJpg w (prepareRpdFile w.prefs f)).1
        (generateNames (syncRawJpg w (prepareRpdFile w.prefs f)).2.1).1).1
      (moveFile (syncRawJpg w (prepareRpdFile w.prefs f)).1
        (generateNames (syncRawJpg w (prepareRpdFile w.prefs f)).2.1).1).2.1
      (w.prefs.mustSynchronizeRawJpg && (prepareRpdFile w.prefs f).isPhoto) hRJ
      (syncRawJpg w (prepareRpdFile w.prefs f)).2.2 hsno
    obtain ⟨m1, m2, m3, m4⟩ := moveFile_state (syncRawJpg w (prepareRpdFile w.prefs f)).1
      (generateNames (syncRawJpg w (prepareRpdFile w.prefs f)).2.1).1
    refine ⟨?_, ?_, ?_, ?_⟩
    · rw [(sidecarPhase_state _ _).2.1, c1, m2, y6]
    · rw [(sidecarPhase_state _ _).2.1, c1, m2, y7]
    · rw [(sidecarPhase_state _ _).1, c2, m1, y1]
    · rw [(sidecarPhase_state _ _).2.2.1, c3, m3, y2]
  all_goals
    obtain ⟨p1, p2, p3, p4, p5⟩ := bookkeep_prefs_flags
      (moveFile (syncRawJpg w (prepareRpdFile w.prefs f)).1
        (generateNames (syncRawJpg w (prepareRpdFile w.prefs f)).2.1).1).1
      (moveFile (syncRawJpg w (prepareRpdFile w.prefs f)).1
        (generateNames (syncRawJpg w (prepareRpdFile w.prefs f)).2.1).1).2.1
      (w.prefs.mustSynchronizeRawJpg && (prepareRpdFile w.prefs f).isPhoto)
      (some (syncRawJpg w (prepareRpdFile w.prefs f)).2.2)
  · rw [(sidecarPhase_state _ _).1, p1,
      (moveFile_state _ _).1, y1]
  · rw [(sidecarPhase_state _ _).1, p2,
      (moveFile_state _ _).1, y1]
  · rw [(sidecarPhase_state _ _).1, p5,
      (moveFile_state _ _).1, y1]
  · rw [(sidecarPhase_state _ _).1, p4,
      (moveFile_state _ _).1, y1]
/-- With no sync result to record, the bookkeeping block is exactly the
counter advance. -/
theorem bookkeep_none (w : Worker) (g : RpdFile) (b : Bool) :
    bookkeep w g b none = bookkeepAdvance w := by
  unfold bookkeep
  cases b <;> simp

/-- With RAW+JPEG synchronisation off, one file request bumps the stored
sequence number exactly when the move succeeded and the naming preferences
reference the stored sequence number; no other preference value changes. -/
theorem processFile_prefs_syncOff (w : Worker) (f : RpdFile)
    (h : w.prefs.mustSynchronizeRawJpg = false) :
    (processFile w f).1.prefs =
      (if (processFile w f).2.2 && w.prefs.usesStoredSequenceNo then
        { w.prefs with storedSequenceNo := w.prefs.storedSequenceNo + 1 }
      else w.prefs) := by
  simp only [processFile]
  have hng : ¬((w.prefs.mustSynchronizeRawJpg && (prepareRpdFile w.prefs f).isPhoto) = true) := by
    simp [h]
  rw [if_neg hng]
  dsimp only
  rw [if_neg (show ¬(false = true) from by simp)]
  split
  · split
    · (try dsimp only)
      rw [(sidecarPhase_state _ _).1, bookkeep_none, bookkeepAdvance_eq]
      by_cases hu :
          ((moveFile w (generateNames (prepareRpdFile w.prefs f)).1).1.prefs).usesStoredSequenceNo =
            true
      · rw [if_pos hu]
        rw [(moveFile_state _ _).1] at hu ⊢
        simp [hu]
      · rw [if_neg hu]
        rw [(moveFile_state _ _).1] at hu ⊢
        simp only [Bool.not_eq_true] at hu
        simp [hu]
    · dsimp only
      rw [(moveFile_state _ _).1]
      simp
  · simp

/-- A file request processed by the daemon loop answers with the move outcome
and carries `process_file`'s preference state. -/
theorem step_fileRequest (w : Worker) (f : RpdFile) :
    (step w (.fileRequest f true)).1.prefs = (processFile w f).1.prefs ∧
    (step w (.fileRequest f true)).2 =
      some (.fileResult (processFile w f).2.2 (processFile w f).2.1) := by
  constructor
  · simp only [step, if_true]
    split <;> simp [processRenameFailure]
  · simp [step]

/-- Over a sync-off session body (file requests then the session-finished
message), the emitted stored sequence number is the starting value plus one per
successful placement when the stored sequence number is referenced. -/
theorem runLoop_files_stored (reqs : List RpdFile) : ∀ (w : Worker),
    w.prefs.mustSynchronizeRawJpg = false →
    ∃ rs dc,
      (runLoop w (reqs.map (fun g => Msg.fileRequest g true) ++ [Msg.downloadCompleted])).2 =
        rs ++ [Response.sessionResult
          (w.prefs.storedSequenceNo +
            (if w.prefs.usesStoredSequenceNo then (rs.countP isPlacedResult : Int) else 0))
          dc] := by
  induction reqs with
  | nil =>
    intro w hw
    refine ⟨[], w.downloadsToday.count, ?_⟩
    simp [runLoop, step]
  | cons f reqs ih =>
    intro w hw
    obtain ⟨hpref, hresp⟩ := step_fileRequest w f
    have hpf := processFile_prefs_syncOff w f hw
    have hw1 : (step w (.fileRequest f true)).1.prefs.mustSynchronizeRawJpg = false := by
      rw [hpref, hpf]
      split_ifs <;> simpa using hw
    obtain ⟨rs, dc, hrs⟩ := ih (step w (.fileRequest f true)).1 hw1
    refine ⟨Response.fileResult (processFile w f).2.2 (processFile w f).2.1 :: rs, dc, ?_⟩
    simp only [List.map_cons, List.cons_append, runLoop]
    rw [hresp]
    simp only [List.singleton_append, List.cons.injEq, List.append_eq]
    refine ⟨trivial, ?_⟩
    rw [hrs, hpref, hpf]
    have hcnt : ((Response.fileResult (processFile w f).2.2 (processFile w f).2.1 :: rs).countP
        isPlacedResult : Int) =
        (if (processFile w f).2.2 then 1 else 0) + (rs.countP isPlacedResult : Int) := by
      cases hok : (processFile w f).2.2 <;>
        simp [List.countP_cons, isPlacedResult, hok, Int.add_comm]
    cases hok : (processFile w f).2.2 <;>
      by_cases hu : w.prefs.usesStoredSequenceNo = true
    all_goals simp_all [hcnt]
    all_goals omega

/-- C6 (amended): for a session with RAW+JPEG synchronization off, the
session-finished response carries a stored sequence number equal to the value
loaded at session start plus one for each successfully placed file when the
active preferences use the stored sequence number (a file that reuses a matched
RAW+JPEG sequence number — sync mode — consumes no bump, see the
counterexample). -/
theorem sessionResult_stored_syncOff (w : Worker) (reqs : List RpdFile) (t : Int)
    (hsync : w.prefs.mustSynchronizeRawJpg = false) :
    ∃ rs dc,
      (runLoop w (Msg.downloadStarted t ::
        (reqs.map (fun g => Msg.fileRequest g true) ++ [Msg.downloadCompleted]))).2 =
        rs ++ [Response.sessionResult
          (w.prefs.storedSequenceNo +
            (if w.prefs.usesStoredSequenceNo then (rs.countP isPlacedResult : Int) else 0))
          dc] := by
  obtain ⟨h1, h2, h3, h4, h5, h6, h7⟩ := step_downloadStarted w t
  obtain ⟨rs, dc, hrs⟩ := runLoop_files_stored reqs (step w (.downloadStarted t)).1
    (by rw [h5]; exact hsync)
  refine ⟨rs, dc, ?_⟩
  simp only [runLoop]
  rw [h7]
  simp only [List.nil_append]
  rw [hrs, h5]

/-- C6 amended-claim witness: the sync-off statement applied at a concrete
one-request session. -/
theorem sessionResult_stored_syncOff_check :
    ∃ rs dc,
      (runLoop workerC2 (Msg.downloadStarted 0 ::
        ([mkReq "IMG.JPG" "IMG.JPG" "tmp/t1" 1 1].map (fun g => Msg.fileRequest g true) ++
          [Msg.downloadCompleted]))).2 =
        rs ++ [Response.sessionResult
          (workerC2.prefs.storedSequenceNo +
            (if workerC2.prefs.usesStoredSequenceNo then
              (rs.countP isPlacedResult : Int) else 0))
          dc] :=
  sessionResult_stored_syncOff workerC2 [mkReq "IMG.JPG" "IMG.JPG" "tmp/t1" 1 1] 0 (by decide)

/-- C4: in RAW+JPEG synchronization mode, two photos with identical base name
and identical capture time/sub-seconds but different extensions, placed
successfully one after the other (either order, since the roles are symmetric):
the second member reuses the sequence number recorded for the first — its
matched slot holds that number and no fresh session, stored, or downloads-today
increment is consumed for it — and after both placements the pairing tracker
holds exactly one entry for the base name, carrying both extensions and the
first member's sequence number. -/
theorem rawJpegPair_shares_sequence (w : Worker) (f1 f2 : RpdFile)
    (hsync : w.prefs.mustSynchronizeRawJpg = true)
    (hp1 : f1.isPhoto = true) (hp2 : f2.isPhoto = true)
    (m : Meta) (hm1 : f1.metadata = some m) (hm2 : f2.metadata = some m)
    (stem e1 e2 : String)
    (hn1 : splitext f1.name = (stem, e1)) (hn2 : splitext f2.name = (stem, e2))
    (hee : e2 ≠ e1)
    (hfresh : lookupPhoto w.syncRawJpeg stem = none)
    (hg1 : f1.genSubfolder ≠ "") (hgn1 : f1.genName ≠ "")
    (hg2 : f2.genSubfolder ≠ "") (hgn2 : f2.genName ≠ "")
    (hdest1 : pathJoin (pathJoin w.prefs.photoDownloadFolder f1.genSubfolder) f1.genName ∉
      w.fs.files)
    (htemp1 : f1.tempFullFileName ∈ w.fs.files)
    (hdest2 : pathJoin (pathJoin w.prefs.photoDownloadFolder f2.genSubfolder) f2.genName ∉
      (processFile w f1).1.fs.files)
    (htemp2 : f2.tempFullFileName ∈ (processFile w f1).1.fs.files) :
    (processFile w f1).2.2 = true ∧
    (processFile (processFile w f1).1 f2).2.2 = true ∧
    (processFile (processFile w f1).1 f2).1.sequences.sessionSequenceNo =
      (processFile w f1).1.sequences.sessionSequenceNo ∧
    (processFile (processFile w f1).1 f2).1.sequences.sequenceLetter =
      (processFile w f1).1.sequences.sequenceLetter ∧
    (processFile (processFile w f1).1 f2).1.prefs.storedSequenceNo =
      (processFile w f1).1.prefs.storedSequenceNo ∧
    (processFile (processFile w f1).1 f2).1.downloadsToday.count =
      (processFile w f1).1.downloadsToday.count ∧
    (processFile (processFile w f1).1 f2).1.sequences.matchedSequences =
      some w.sequences.sessionSequenceNo ∧
    lookupPhoto (processFile (processFile w f1).1 f2).1.syncRawJpeg stem =
      some ⟨[e1, e2], m.dateTime, m.subSeconds, w.sequences.sessionSequenceNo⟩ ∧
    ((processFile (processFile w f1).1 f2).1.syncRawJpeg.countP
      (fun p => decide (p.1 = stem))) = 1 := by
  have hs11 : (splitext f1.name).1 = stem := by rw [hn1]
  have hs12 : (splitext f1.name).2 = e1 := by rw [hn1]
  have hs21 : (splitext f2.name).1 = stem := by rw [hn2]
  have hs22 : (splitext f2.name).2 = e2 := by rw [hn2]
  have hmp1 : matchingPair w.syncRawJpeg stem e1 m.dateTime m.subSeconds =
      ⟨.noMatch, none⟩ := by
    simp [matchingPair, hfresh]
  obtain ⟨ok1, htr1, hms1, hcnt1, hf1a, hf1b, hf1c, hf1d⟩ :=
    processFile_sync_success w f1 hsync hp1 m hm1
      (by rw [hs11, hs12, hmp1]; simp) hg1 hgn1 hdest1 htemp1
  rw [hs11, hs12, hmp1] at htr1
  simp only [addDownload, hfresh] at htr1
  have htr1' : (processFile w f1).1.syncRawJpeg =
      w.syncRawJpeg ++ [(stem, ⟨[e1], m.dateTime, m.subSeconds,
        w.sequences.sessionSequenceNo⟩)] := htr1
  have hlook1 : lookupPhoto (processFile w f1).1.syncRawJpeg stem =
      some ⟨[e1], m.dateTime, m.subSeconds, w.sequences.sessionSequenceNo⟩ := by
    rw [htr1']
    exact lookupPhoto_append _ _ _ hfresh
  have hmp2 : matchingPair (processFile w f1).1.syncRawJpeg stem e2 m.dateTime m.subSeconds =
      ⟨.matchingPair, some w.sequences.sessionSequenceNo⟩ := by
    simp [matchingPair, hlook1, hee]
  obtain ⟨ok2, htr2, hms2, hcnt2, hf2a, hf2b, hf2c, hf2d⟩ :=
    processFile_sync_success (processFile w f1).1 f2 (by rw [hf1a]; exact hsync) hp2 m hm2
      (by rw [hs21, hs22, hmp2]; simp) hg2 hgn2 (by rw [hf1b]; exact hdest2) htemp2
  rw [hs21, hs22, hmp2] at htr2 hms2 hcnt2
  obtain ⟨c1, c2, c3, c4⟩ := hcnt2 (by simp)
  refine ⟨ok1, ok2, c1, c2, c3, c4, by rw [hms2], ?_, ?_⟩
  · rw [htr2]
    simp only [addDownload, hlook1]
    rw [lookupPhoto_addExt _ _ _ _ hlook1]
    simp [hee]
  · rw [htr2]
    simp only [addDownload, hlook1]
    rw [countP_addExt, htr1', List.countP_append]
    rw [countP_eq_zero_of_lookup_none w.syncRawJpeg stem hfresh]
    simp

/-- C4 witness: the concrete RAW+JPEG pair of the C6 scenario placed through
the worker: both placements succeed and the tracker ends with one entry for
`B001` holding both extensions and the shared sequence number. -/
theorem rawJpegPair_shares_sequence_check :
    (processFile workerC6 (mkReq "B001.cr2" "B.CR2" "t/b1" 9 9)).2.2 = true ∧
    (processFile (processFile workerC6 (mkReq "B001.cr2" "B.CR2" "t/b1" 9 9)).1
      (mkReq "B001.jpg" "B.JPG" "t/b2" 9 9)).2.2 = true ∧
    lookupPhoto (processFile (processFile workerC6 (mkReq "B001.cr2" "B.CR2" "t/b1" 9 9)).1
        (mkReq "B001.jpg" "B.JPG" "t/b2" 9 9)).1.syncRawJpeg "B001" =
      some ⟨[".cr2", ".jpg"], 9, 9, 0⟩ := by
  have h := rawJpegPair_shares_sequence workerC6 (mkReq "B001.cr2" "B.CR2" "t/b1" 9 9)
    (mkReq "B001.jpg" "B.JPG" "t/b2" 9 9) (by decide) (by decide) (by decide) ⟨9, 9⟩
    (by decide) (by decide) "B001" ".cr2" ".jpg" (by decide) (by decide) (by decide)
    (by decide) (by decide) (by decide) (by decide) (by decide) (by decide) (by decide)
    (by decide) (by decide)
  exact ⟨h.1, h.2.1, h.2.2.2.2.2.2.2.1⟩

/-- C2 (code bug): under the add-identifier policy, the second file generating
the destination name `IMG.JPG` is physically renamed to `IMG_1.JPG` with the
`_1` unique-identifier problem and status downloaded-with-warning — but
`move_file` discards the return value of `add_unique_identifier`, so
`process_file` still reports the placement as failed (`move_succeeded = False`);
a third identical name does receive `_2`, again reported as failed. -/
theorem addIdentifier_success_reported_as_failure :
    c2Run1.2.2 = true ∧ c2Run1.2.1.status = .downloaded ∧
    c2Run2.2.2 = false ∧
    c2Run2.2.1.status = .downloadedWithWarning ∧
    c2Run2.2.1.problems = [Problem.uniqueIdentifierAdded "_1"] ∧
    "dl/sub/IMG_1.JPG" ∈ c2Run2.1.fs.files ∧
    c2Run3.2.2 = false ∧
    "dl/sub/IMG_2.JPG" ∈ c2Run3.1.fs.files := by
  decide

/-- C6 (counterexample): in RAW+JPEG sync mode, a session placing a matched
RAW+JPEG pair reports two successful placements while the stored sequence
number is referenced by the preferences, yet the emitted `SessionResult`
carries `100 + 1`, not `100 + 2` as one-per-successfully-placed-file would
give: the pair's second member consumes no stored-sequence bump. -/
theorem sessionResult_stored_not_one_per_placement :
    workerC6.prefs.storedSequenceNo = 100 ∧
    workerC6.prefs.usesStoredSequenceNo = true ∧
    (c6Resps.countP isPlacedResult) = 2 ∧
    c6Resps.getLast? = some (.sessionResult 101 1) ∧
    (101 : Int) ≠ 100 + 2 := by
  decide

/-- C7 (counterexample): after a second `download_started` message the pairing
tracker and the per-destination duplicate-suffix dict still hold the previous
session's entries — only the sequence state and the downloads-today tracker are
re-initialized. -/
theorem sessionStart_does_not_clear_trackers :
    c7End.sequences = ⟨0, 0, none⟩ ∧
    c7End.downloadsToday = ⟨1, 0⟩ ∧
    c7End.syncRawJpeg ≠ [] ∧
    c7End.duplicateFiles ≠ [] := by
  decide

/-- C8 (counterexample): a successfully placed file whose THM sidecar temp file
is gone: the primary placement is reported successful with status `downloaded`
and the sidecar rename fails (the destination `dl/sub/M.THM` does not exist),
but no problem at all is recorded on the reported result — the failure is only
logged. -/
theorem sidecarFailure_not_recorded_as_problem :
    c8Run.2.2 = true ∧
    c8Run.2.1.status = .downloaded ∧
    c8Run.2.1.tempThmFullName = some "t/thm" ∧
    c8Run.2.1.downloadThmFullName = "dl/sub/M.THM" ∧
    "dl/sub/M.THM" ∉ c8Run.1.fs.files ∧
    c8Run.2.1.problems = [] := by
  decide


/-! ## Termination of the unique-identifier retry loop (C9 machinery) -/

/-- Unfolding equation for `decChars`. -/
theorem decChars_eq (n : Nat) : decChars n =
    if n < 10 then [Nat.digitChar n]
    else decChars (n / 10) ++ [Nat.digitChar (n % 10)] := by
  conv_lhs => rw [decChars]
  by_cases h : n < 10 <;> simp [h]

/-- `decChars` on a single digit. -/
theorem decChars_lt (n : Nat) (h : n < 10) : decChars n = [Nat.digitChar n] := by
  rw [decChars_eq, if_pos h]

/-- `decChars` on a multi-digit number. -/
theorem decChars_ge (n : Nat) (h : ¬ n < 10) :
    decChars n = decChars (n / 10) ++ [Nat.digitChar (n % 10)] := by
  rw [decChars_eq, if_neg h]

/-- A digit character decodes back to its digit. -/
theorem digitChar_toNat_sub (d : Nat) (h : d < 10) : (Nat.digitChar d).toNat - 48 = d := by
  interval_cases d <;> rfl

/-- Folding the decimal-decoding step over `decChars n` recovers `n`. -/
theorem decChars_foldl (n : Nat) : ∀ a : Nat,
    List.foldl (fun a c => a * 10 + (c.toNat - 48)) a (decChars n) =
      a * 10 ^ (decChars n).length + n := by
  induction n using decChars.induct with
  | case1 n h =>
    intro a
    rw [decChars_lt _ h]
    simp [List.foldl, digitChar_toNat_sub _ h]
  | case2 n h ih =>
    intro a
    rw [decChars_ge _ h, List.foldl_append, ih a]
    simp only [List.foldl, List.length_append, List.length_singleton]
    rw [digitChar_toNat_sub _ (Nat.mod_lt _ (by omega)), pow_succ]
    rw [Nat.add_mul, Nat.add_assoc, Nat.mul_assoc]
    congr 1
    omega

/-- Distinct numbers have distinct decimal digit lists. -/
theorem decChars_injective {m n : Nat} (h : decChars m = decChars n) : m = n := by
  have hm := decChars_foldl m 0
  rw [h, decChars_foldl n 0] at hm
  omega

/-- With sufficient fuel, the core decimal printer produces `decChars`. -/
theorem toDigitsCore_eq (fuel : Nat) : ∀ n ds, n < fuel →
    Nat.toDigitsCore 10 fuel n ds = decChars n ++ ds := by
  induction fuel with
  | zero => intro n ds h; omega
  | succ fuel ih =>
    intro n ds h
    simp only [Nat.toDigitsCore]
    by_cases h10 : n / 10 = 0
    · rw [if_pos h10]
      have hn : n < 10 := by omega
      rw [decChars_lt _ hn, Nat.mod_eq_of_lt hn]
      simp
    · rw [if_neg h10]
      have hge : ¬ n < 10 := by omega
      rw [ih (n / 10) _ (by omega), decChars_ge _ hge]
      simp

/-- `Nat.repr` is the string of the decimal digit characters. -/
theorem repr_eq_decChars (n : Nat) : Nat.repr n = ⟨decChars n⟩ := by
  show (Nat.toDigits 10 n).asString = _
  rw [show Nat.toDigits 10 n = Nat.toDigitsCore 10 (n + 1) n [] from rfl]
  rw [toDigitsCore_eq (n + 1) n [] (by omega)]
  simp [List.asString]

/-- Distinct numbers print to distinct strings. -/
theorem natRepr_injective {m n : Nat} (h : Nat.repr m = Nat.repr n) : m = n := by
  rw [repr_eq_decChars, repr_eq_decChars] at h
  exact decChars_injective (congrArg String.data h)

/-- Two `_i` candidate destination names built from the same path, stem and
extension agree only for the same counter value. -/
theorem candidate_injective (p stem ext : String) {i j : Nat}
    (h : pathJoin p (stem ++ ("_" ++ Nat.repr i) ++ ext) =
         pathJoin p (stem ++ ("_" ++ Nat.repr j) ++ ext)) : i = j := by
  apply natRepr_injective
  have hd := congrArg String.data h
  simp only [pathJoin, String.data_append, List.append_assoc] at hd
  have h1 := List.append_cancel_left hd
  have h2 := List.append_cancel_left h1
  have h3 := List.append_cancel_left h2
  have h4 := List.append_cancel_left h3
  have h5 := List.append_cancel_right h4
  exact String.toList_inj.mp h5

/-- Writing a key then reading it back yields the written value. -/
theorem assocGetD_set (d : List (String × Nat)) (k : String) (v dflt : Nat) :
    assocGetD (assocSet d k v) k dflt = v := by
  induction d with
  | nil => simp [assocSet, assocGetD]
  | cons kv t ih =>
    obtain ⟨a, b⟩ := kv
    by_cases hk : a = k
    · simp [assocSet, assocGetD, hk]
    · simp [assocSet, assocGetD, hk, ih]

/-- If the retry loop exhausts its fuel, every counter value tried named an
existing file: the candidate names for the whole fuel window are in the
filesystem. -/
theorem addUidLoop_none_mem (stem ext fullName : String) :
    ∀ (fuel : Nat) (w : Worker) (f : RpdFile),
      addUidLoop fuel w f stem ext fullName = none →
      ∀ i ∈ Finset.Ioc (assocGetD w.duplicateFiles fullName 0)
          (assocGetD w.duplicateFiles fullName 0 + fuel),
        pathJoin f.downloadPath (stem ++ ("_" ++ Nat.repr i) ++ ext) ∈ w.fs.files := by
  intro fuel
  induction fuel with
  | zero =>
    intro w f _ i hi
    simp at hi
  | succ fuel ih =>
    intro w f hnone i hi
    rcases Finset.mem_Ioc.mp hi with ⟨hi1, hi2⟩
    simp only [addUidLoop] at hnone
    split at hnone
    · rename_i hmem
      by_cases hieq : i = assocGetD w.duplicateFiles fullName 0 + 1
      · subst hieq
        exact hmem
      · have hrec := ih _ _ hnone i ?_
        · exact hrec
        · rw [Finset.mem_Ioc]
          constructor
          · show assocGetD (assocSet w.duplicateFiles fullName _) fullName 0 < i
            rw [assocGetD_set]
            omega
          · show i ≤ assocGetD (assocSet w.duplicateFiles fullName _) fullName 0 + fuel
            rw [assocGetD_set]
            omega
    · split at hnone <;> simp at hnone

/-- The fuel `|files| + 1` used by `addUniqueIdentifier` always suffices: the
candidate names of a fuel window are pairwise distinct, so an exhausted loop
would inject `|files| + 1` names into the `|files|`-element filesystem. -/
theorem addUidLoop_isSome (w : Worker) (f : RpdFile) (stem ext fullName : String) :
    addUidLoop (w.fs.files.length + 1) w f stem ext fullName ≠ none := by
  intro hnone
  have hmem := addUidLoop_none_mem stem ext fullName _ w f hnone
  have hcard :
      (Finset.Ioc (assocGetD w.duplicateFiles fullName 0)
        (assocGetD w.duplicateFiles fullName 0 + (w.fs.files.length + 1))).card ≤
        w.fs.files.toFinset.card := by
    apply Finset.card_le_card_of_injOn
      (fun i => pathJoin f.downloadPath (stem ++ ("_" ++ Nat.repr i) ++ ext))
    · intro i hi
      rw [List.mem_toFinset]
      exact hmem i hi
    · intro i _ j _ hij
      exact candidate_injective _ _ _ hij
  rw [Nat.card_Ioc] at hcard
  have hle := w.fs.files.toFinset_card_le
  omega

/-- Characterization of every normal exit of the retry loop: the final
candidate name is unused; the loop stopped either by a successful rename of the
temp file to it (returned `true`, renamed filesystem, warning status) or by the
non-`EEXIST` failure of that rename (returned `false`, unchanged filesystem,
failed status). -/
theorem addUidLoop_some_spec (stem ext fullName : String) :
    ∀ (fuel : Nat) (w : Worker) (f : RpdFile) (q : Worker × RpdFile × Bool),
      addUidLoop fuel w f stem ext fullName = some q →
      q.2.1.downloadFullFileName ∉ w.fs.files ∧
      ((q.2.2 = true ∧ f.tempFullFileName ∈ w.fs.files ∧
          q.1.fs = w.fs.rename f.tempFullFileName q.2.1.downloadFullFileName ∧
          q.2.1.status = DownloadStatus.downloadedWithWarning) ∨
        (q.2.2 = false ∧ f.tempFullFileName ∉ w.fs.files ∧ q.1.fs = w.fs ∧
          q.2.1.status = DownloadStatus.downloadFailed)) := by
  intro fuel
  induction fuel with
  | zero =>
    intro w f q h
    simp [addUidLoop] at h
  | succ fuel ih =>
    intro w f q h
    simp only [addUidLoop] at h
    split at h
    · have hrec := ih _ _ _ h
      exact hrec
    · rename_i hmem
      split at h
      · rename_i htemp
        injection h with h
        subst h
        refine ⟨hmem, Or.inl ⟨rfl, htemp, rfl, ?_⟩⟩
        simp [notifyFileAlreadyExists, addProblem]
      · rename_i htemp
        injection h with h
        subst h
        refine ⟨hmem, Or.inr ⟨rfl, htemp, rfl, ?_⟩⟩
        simp [notifyDownloadFailureFileError, addProblem]

/-- C9: under the add-identifier conflict policy the rename-retry loop of
`add_unique_identifier` terminates on every execution — within at most
`|files| + 1` identifier attempts (the candidate `_n` names are pairwise
distinct, so the finite filesystem bounds the retries) the loop stops, either
because the atomic rename of the temp file to an unused candidate name
succeeded (returned `true`, warning status) or because that rename failed with
a non-`EEXIST` error (returned `false`, failure status, filesystem unchanged);
`addUniqueIdentifier`'s fallback default is never consulted. -/
theorem addUniqueIdentifier_terminates (w : Worker) (f : RpdFile) :
    ∃ q : Worker × RpdFile × Bool,
      addUidLoop (w.fs.files.length + 1) w f (splitext f.downloadName).1
          (splitext f.downloadName).2 f.downloadFullFileName = some q ∧
      addUniqueIdentifier w f = q ∧
      q.2.1.downloadFullFileName ∉ w.fs.files ∧
      ((q.2.2 = true ∧ f.tempFullFileName ∈ w.fs.files ∧
          q.1.fs = w.fs.rename f.tempFullFileName q.2.1.downloadFullFileName ∧
          q.2.1.status = DownloadStatus.downloadedWithWarning) ∨
        (q.2.2 = false ∧ f.tempFullFileName ∉ w.fs.files ∧ q.1.fs = w.fs ∧
          q.2.1.status = DownloadStatus.downloadFailed)) := by
  cases hq : addUidLoop (w.fs.files.length + 1) w f (splitext f.downloadName).1
      (splitext f.downloadName).2 f.downloadFullFileName with
  | none => exact absurd hq (addUidLoop_isSome w f _ _ _)
  | some q =>
    obtain ⟨h1, h2⟩ := addUidLoop_some_spec _ _ _ _ w f q hq
    refine ⟨q, rfl, ?_, h1, h2⟩
    simp [addUniqueIdentifier, hq]

end RPD
